import Mathlib

/-!
Shallow embedding of the secure-mcq-app exam backend (Fastify + PostgreSQL).

The repository contains two evolutionary variants of the session lifecycle:
`src/routes/assessment.js` (the canonical one: positional answer log,
autosave drafts, terminate-on-reconnect) and a second variant concatenated
into `src/routes/admin.js` (disconnect counter with threshold 2,
`assessment_closed` refusal at start).  Both are embedded below; definitions
for the second variant carry an `adm` prefix.  Utility functions come from
`src/utils.js`.

Conventions of the embedding:
  * timestamps are `Int` milliseconds since epoch (`Date.now()` / ISO strings);
  * the database is explicit state (`DBState`), SQL row operations become
    list operations (`SELECT ... WHERE token` is `find?`, `UPDATE ... WHERE
    token` maps over matching rows, `ON CONFLICT DO UPDATE` is an upsert);
  * JavaScript nullable strings are `Option String`; the `x || null`
    falsy coercion (empty string ↦ null) is `jsStrOrNull` / `jsOptOrNull`;
  * `Math.random()`-driven shuffles take an explicit oracle `rand : Nat → Nat`
    (the index `j = Math.floor(Math.random() * (i + 1))` becomes
    `rand i % (i + 1)`), and `crypto.scryptSync` is an explicit function
    parameter, so everything stays executable.
-/

/-- JavaScript `String.prototype.trim`: drop leading and trailing
whitespace. -/
def jsTrim (cs : List Char) : List Char :=
  ((cs.dropWhile Char.isWhitespace).reverse.dropWhile
    Char.isWhitespace).reverse

/-- `sanitizeText` from src/utils.js: strip the characters `<`, `>` and
backquote, then trim surrounding whitespace. -/
def sanitizeText (value : String) : String :=
  String.mk (jsTrim (value.data.filter
    (fun c => !(c == '<' || c == '>' || c == Char.ofNat 96))))

/-- JavaScript `s || null` for a string: empty string is falsy. -/
def jsStrOrNull (s : String) : Option String :=
  if s = "" then none else some s

/-- JavaScript `s || null` for an already-nullable string. -/
def jsOptOrNull : Option String → Option String
  | some s => jsStrOrNull s
  | none => none

/-- One rendered option of a snapshot question (`buildSessionQuestions`):
display label is assigned after the per-session shuffle, `originalId` is the
stable bank option key, `correct` the snapshot correctness flag. -/
structure Distractor where
  displayLabel : String
  originalId : String
  text : String
  correct : Bool
deriving DecidableEq, Repr

/-- One entry of a session's immutable `questions_snapshot`
(shape produced by `buildSessionQuestions` in src/routes/assessment.js). -/
structure SnapshotQuestion where
  id : String
  bank_code : String
  category : String
  difficulty : String
  topic_tag : Option String
  stem : String
  explanation : String
  image : Option String
  distractors : List Distractor
deriving DecidableEq, Repr

/-- One entry of the append-only `answers` log. -/
structure AnswerEntry where
  questionId : String
  selectedOriginalId : Option String
deriving DecidableEq, Repr

/-- A row of the `sessions` table (the columns the embedded routes read or
write). `draft_answers` is the JSON object of autosaved selections, kept as
an insertion-ordered association list with unique keys. -/
structure Session where
  token : String
  seed : String
  assessment_id : String
  student_name : String
  student_id : String
  started_at : Int
  expires_at : Int
  exam_window_end_at : Option Int
  status : String
  question_order : List String
  questions_snapshot : List SnapshotQuestion
  answers : List AnswerEntry
  draft_answers : List (String × String)
  score : Option Nat
  total : Option Nat
  submitted_at : Option Int
  auto_submitted : Bool
  termination_reason : Option String
deriving DecidableEq, Repr

/-- Per-question entry of the denormalized `result_payload` built by
`finalizeSession` in src/routes/assessment.js. -/
structure DetailRow where
  questionId : String
  bankName : String
  difficulty : String
  topicTag : Option String
  stem : String
  selectedOriginalId : Option String
  selected : String
  correctOriginalId : Option String
  correct : String
  explanation : String
  isCorrect : Bool
deriving DecidableEq, Repr

/-- The student identity block of a result payload. -/
structure StudentInfo where
  fullName : String
  studentId : String
deriving DecidableEq, Repr

/-- The full `result_payload` JSON produced by `finalizeSession`. -/
structure ResultPayload where
  token : String
  seed : String
  student : StudentInfo
  score : Nat
  total : Nat
  percentage : Nat
  timeTakenMs : Int
  violationCount : Nat
  submittedAt : Int
  autoSubmitted : Bool
  terminationReason : Option String
  details : List DetailRow
deriving DecidableEq, Repr

/-- A row of the `submissions` table (unique on `session_token`). -/
structure SubmissionRow where
  session_token : String
  assessment_id : String
  student_name : String
  student_id : String
  score : Nat
  total : Nat
  percentage : Nat
  time_taken_ms : Int
  violation_count : Nat
  auto_submitted : Bool
  result_payload : ResultPayload
  submitted_at : Int
deriving DecidableEq, Repr

/-- A row of the append-only `violation_events` table. -/
structure ViolationEvent where
  session_token : String
  event_type : String
  details : String
  question_index : Option Int
deriving DecidableEq, Repr

/-- The slice of the `assessments` table the session routes read after
creation time. -/
structure AssessmentRow where
  id : String
  results_released : Bool
deriving DecidableEq, Repr

/-- The database state touched by the session lifecycle routes. -/
structure DBState where
  assessments : List AssessmentRow
  sessions : List Session
  submissions : List SubmissionRow
  violation_events : List ViolationEvent
deriving DecidableEq, Repr

/-- `SELECT * FROM sessions WHERE token = $1` and take `rows[0]`. -/
def findSession (db : DBState) (token : String) : Option Session :=
  db.sessions.find? (fun s => s.token == token)

/-- `UPDATE sessions SET ... WHERE token = $1`: apply `f` to every matching
row. -/
def updateSession (db : DBState) (token : String) (f : Session → Session) :
    DBState :=
  let rows := db.sessions.map (fun s => if s.token == token then f s else s)
  { db with sessions := rows }

/-- `SELECT result_payload FROM submissions WHERE session_token = $1`. -/
def findSubmission (db : DBState) (token : String) : Option SubmissionRow :=
  db.submissions.find? (fun r => r.session_token == token)

/-- `SELECT COUNT(*) FROM violation_events WHERE session_token = $1`. -/
def countViolations (db : DBState) (token : String) : Nat :=
  (db.violation_events.filter (fun v => v.session_token == token)).length

/-- `SELECT results_released FROM assessments WHERE id = $1`, coerced with
`!!` (missing row ↦ false). -/
def resultsReleased (db : DBState) (assessmentId : String) : Bool :=
  match db.assessments.find? (fun a => a.id == assessmentId) with
  | some a => a.results_released
  | none => false

/-- The `INSERT ... ON CONFLICT (session_token) DO UPDATE SET ...` of
`finalizeSession`: if a row with this token exists, only the columns listed
in the `DO UPDATE SET` clause change; otherwise the new row is appended. -/
def upsertSubmission (db : DBState) (row : SubmissionRow) : DBState :=
  if db.submissions.any (fun r => r.session_token == row.session_token) then
    let rows := db.submissions.map (fun r =>
      if r.session_token == row.session_token then
        { r with result_payload := row.result_payload,
                 score := row.score, total := row.total,
                 percentage := row.percentage,
                 time_taken_ms := row.time_taken_ms,
                 violation_count := row.violation_count,
                 auto_submitted := row.auto_submitted,
                 submitted_at := row.submitted_at }
      else r)
    { db with submissions := rows }
  else
    { db with submissions := db.submissions ++ [row] }

/-- Lookup in `new Map((session.answers || []).map((a) => [a.questionId,
a.selectedOriginalId || null]))`: the value of the last log entry with this
question id (later `Map` insertions overwrite earlier ones). -/
def answersLookup (answers : List AnswerEntry) (qid : String) :
    Option (Option String) :=
  match answers.reverse.find? (fun a => a.questionId == qid) with
  | some a => some (jsOptOrNull a.selectedOriginalId)
  | none => none

/-- Lookup of `session.draft_answers[questionId]` (JSON object as assoc
list with unique keys). -/
def draftLookup (drafts : List (String × String)) (qid : String) :
    Option String :=
  (drafts.find? (fun p => p.1 == qid)).map (fun p => p.2)

/-- `computeAnswerMap` from src/routes/assessment.js as a lookup function:
entries come from the answer log; a draft fills in only when the log has no
entry for that question id. -/
def computeAnswerMapGet (s : Session) (qid : String) :
    Option (Option String) :=
  match answersLookup s.answers qid with
  | some v => some v
  | none =>
    match draftLookup s.draft_answers qid with
    | some sel => some (jsStrOrNull sel)
    | none => none

/-- `const selectedId = answerMap.get(q.id) || null` in `finalizeSession`. -/
def selectedIdFor (s : Session) (qid : String) : Option String :=
  match computeAnswerMapGet s qid with
  | some v => v
  | none => none

/-- The per-question result row built inside `finalizeSession`
(src/routes/assessment.js lines 128-148), including the score predicate
`isCorrect`. -/
def detailFor (s : Session) (q : SnapshotQuestion) : DetailRow :=
  let selectedId := selectedIdFor s q.id
  let selected : Option Distractor :=
    match selectedId with
    | some sid => q.distractors.find? (fun d => d.originalId == sid)
    | none => none
  let correct : Option Distractor := q.distractors.find? (fun d => d.correct)
  let isCorrect : Bool :=
    match selected, correct with
    | some a, some b => a.originalId == b.originalId
    | _, _ => false
  { questionId := q.id
    bankName := q.bank_code
    difficulty := q.difficulty
    topicTag := jsOptOrNull q.topic_tag
    stem := q.stem
    selectedOriginalId := selected.map (fun d => d.originalId)
    selected := match selected with
                | some d => d.text
                | none => "Unanswered"
    correctOriginalId := correct.map (fun d => d.originalId)
    correct := match correct with
               | some d => d.text
               | none => "N/A"
    explanation := q.explanation
    isCorrect := isCorrect }

/-- The `details` array of `finalizeSession`. -/
def gradeDetails (s : Session) : List DetailRow :=
  s.questions_snapshot.map (detailFor s)

/-- The accumulated `score` of `finalizeSession` (`if (isCorrect) score += 1`
over the snapshot). -/
def gradeScore (s : Session) : Nat :=
  (gradeDetails s).countP (fun d => d.isCorrect)

/-- `Math.round((score / total) * 100)`, modelled as exact round-half-up on
the rational `100 * score / total`: `⌊(100 * score / total) + 1/2⌋ =
(200 * score + total) / (2 * total)`. -/
def jsRound100 (score total : Nat) : Nat :=
  (200 * score + total) / (2 * total)

/-- `const percentage = total ? Math.round((score / total) * 100) : 0`. -/
def percentageOf (score total : Nat) : Nat :=
  if total = 0 then 0 else jsRound100 score total

/-- `finalizeSession` from src/routes/assessment.js: idempotent early
return when the passed session row is already `submitted`, otherwise grade,
flip the session row to `submitted` and upsert the one-per-session
`submissions` row. Returns the new database plus the JS return value
(`result_payload` or `null`). -/
def finalizeSession (db : DBState) (s : Session) (autoSubmitted : Bool)
    (reason : String) (now : Int) : DBState × Option ResultPayload :=
  if s.status == "submitted" then
    (db, (findSubmission db s.token).map (fun r => r.result_payload))
  else
    let score := gradeScore s
    let details := gradeDetails s
    let total := s.question_order.length
    let percentage := percentageOf score total
    let timeTakenMs := max 0 (now - s.started_at)
    let violationCount := countViolations db s.token
    let resultPayload : ResultPayload :=
      { token := s.token
        seed := s.seed
        student := { fullName := s.student_name, studentId := s.student_id }
        score := score
        total := total
        percentage := percentage
        timeTakenMs := timeTakenMs
        violationCount := violationCount
        submittedAt := now
        autoSubmitted := autoSubmitted
        terminationReason := jsStrOrNull reason
        details := details }
    let db1 := updateSession db s.token (fun r =>
      { r with status := "submitted"
               submitted_at := some now
               score := some score
               total := some total
               auto_submitted := autoSubmitted
               termination_reason :=
                 if reason = "" then r.termination_reason else some reason })
    let db2 := upsertSubmission db1
      { session_token := s.token
        assessment_id := s.assessment_id
        student_name := s.student_name
        student_id := s.student_id
        score := score
        total := total
        percentage := percentage
        time_taken_ms := timeTakenMs
        violation_count := violationCount
        auto_submitted := autoSubmitted
        result_payload := resultPayload
        submitted_at := now }
    (db2, some resultPayload)

/-- `getRemainingMs`: `Math.max(0, new Date(session.expires_at).getTime() -
Date.now())`. -/
def getRemainingMs (s : Session) (now : Int) : Int :=
  max 0 (s.expires_at - now)

/-- One option as rendered to the client by `toQuestionForClient`: only the
display label, the stable option key and the text — no correctness flag. -/
structure ClientOption where
  displayLabel : String
  originalId : String
  text : String
deriving DecidableEq, Repr

/-- The `question` object of `toQuestionForClient`. -/
structure ClientQuestion where
  id : String
  category : String
  difficulty : String
  topicTag : Option String
  stem : String
  image : Option String
  options : List ClientOption
deriving DecidableEq, Repr

/-- The full payload of `toQuestionForClient`. -/
structure ClientQuestionPayload where
  token : String
  questionIndex : Nat
  totalQuestions : Nat
  progressLabel : String
  question : ClientQuestion
deriving DecidableEq, Repr

/-- `toQuestionForClient(session, index)` from src/routes/assessment.js. -/
def toQuestionForClient (s : Session) (index : Nat) :
    Option ClientQuestionPayload :=
  match s.questions_snapshot[index]? with
  | none => none
  | some question =>
    some
      { token := s.token
        questionIndex := index
        totalQuestions := s.question_order.length
        progressLabel := "Question " ++ toString (index + 1) ++ " of " ++
          toString s.question_order.length
        question :=
          { id := question.id
            category := question.category
            difficulty := question.difficulty
            topicTag := jsOptOrNull question.topic_tag
            stem := question.stem
            image := question.image
            options := question.distractors.map (fun d =>
              { displayLabel := d.displayLabel
                originalId := d.originalId
                text := d.text }) } }

/-- `resultVisibilityPayload(assessment, result)`. -/
inductive VisPayload where
  | released (result : Option ResultPayload)
  | pendingRelease
deriving DecidableEq, Repr

/-- `resultVisibilityPayload` from src/routes/assessment.js. -/
def resultVisibilityPayload (released : Bool) (result : Option ResultPayload) :
    VisPayload :=
  if released then .released result else .pendingRelease

/-- Responses of `GET /session/:token/question`. -/
inductive QuestionResp where
  | sessionNotFound
  | sessionNotActive (terminationReason : Option String)
  | timerExpired (vis : VisPayload)
  | completed (vis : VisPayload)
  | ok (remainingMs : Int) (examWindowEndAt : Option Int)
       (payload : ClientQuestionPayload)
deriving DecidableEq, Repr

/-- `GET /session/:token/question` from src/routes/assessment.js. -/
def questionRoute (db : DBState) (token : String) (now : Int) :
    DBState × QuestionResp :=
  match findSession db token with
  | none => (db, .sessionNotFound)
  | some session =>
    if session.status != "active" then
      (db, .sessionNotActive (jsOptOrNull session.termination_reason))
    else if getRemainingMs session now ≤ 0 then
      let (db1, result) := finalizeSession db session true "timer_expired" now
      (db1, .timerExpired
        (resultVisibilityPayload (resultsReleased db1 session.assessment_id)
          result))
    else
      let index := session.answers.length
      match toQuestionForClient session index with
      | none =>
        let (db1, result) := finalizeSession db session false "" now
        (db1, .completed
          (resultVisibilityPayload (resultsReleased db1 session.assessment_id)
            result))
      | some payload =>
        (db, .ok (getRemainingMs session now) session.exam_window_end_at
          payload)

/-- Responses of `POST /session/:token/answer`. -/
inductive AnswerResp where
  | questionIdRequired
  | sessionNotFound
  | sessionNotActive
  | timerExpired (result : Option ResultPayload)
  | invalidQuestionSequence
  | invalidOptionForQuestion
  | done (vis : VisPayload)
  | next (remainingMs : Int) (examWindowEndAt : Option Int)
         (next : ClientQuestionPayload)
deriving DecidableEq, Repr

/-- JavaScript `a || b || null` where `a`, `b` are nullable strings
(`selectedOriginalId || drafts[questionId] || null`). -/
def jsFalsyChain (a b : Option String) : Option String :=
  match a with
  | some sa => if sa = "" then jsOptOrNull b else some sa
  | none => jsOptOrNull b

/-- `POST /session/:token/answer` from src/routes/assessment.js: the
check-and-append transition under the session row lock. `bodyQuestionId` and
`bodySelected` are the raw request body fields. -/
def answerRoute (db : DBState) (token : String) (bodyQuestionId : String)
    (bodySelected : Option String) (now : Int) : DBState × AnswerResp :=
  let questionId := sanitizeText bodyQuestionId
  let selectedOriginalId := bodySelected.map sanitizeText
  if questionId = "" then
    (db, .questionIdRequired)
  else
    match findSession db token with
    | none => (db, .sessionNotFound)
    | some session =>
      if session.status != "active" then
        (db, .sessionNotActive)
      else if getRemainingMs session now ≤ 0 then
        let (db1, finalized) :=
          finalizeSession db session true "timer_expired" now
        (db1, .timerExpired finalized)
      else
        let currentIndex := session.answers.length
        match session.questions_snapshot[currentIndex]? with
        | none =>
          let (db1, finalized) := finalizeSession db session false "" now
          (db1, .done
            (resultVisibilityPayload
              (resultsReleased db1 session.assessment_id) finalized))
        | some expectedQuestion =>
          if expectedQuestion.id != questionId then
            (db, .invalidQuestionSequence)
          else
            let resolvedSelected := jsFalsyChain selectedOriginalId
              (draftLookup session.draft_answers questionId)
            let validOption :=
              match resolvedSelected with
              | some sel =>
                expectedQuestion.distractors.any
                  (fun d => d.originalId == sel)
              | none => true
            if !validOption then
              (db, .invalidOptionForQuestion)
            else
              let newAnswers := session.answers ++
                [{ questionId := questionId,
                   selectedOriginalId := resolvedSelected }]
              let newDrafts := session.draft_answers.filter
                (fun p => p.1 != questionId)
              let db1 := updateSession db token (fun r =>
                { r with answers := newAnswers, draft_answers := newDrafts })
              match toQuestionForClient { session with answers := newAnswers }
                  newAnswers.length with
              | none =>
                let (db2, finalized) := finalizeSession db1
                  { session with answers := newAnswers,
                                 draft_answers := newDrafts } false "" now
                (db2, .done
                  (resultVisibilityPayload
                    (resultsReleased db2 session.assessment_id) finalized))
              | some nextQuestion =>
                (db1, .next (getRemainingMs session now)
                  session.exam_window_end_at nextQuestion)

/-- Responses of `POST /session/:token/autosave`. -/
inductive AutosaveResp where
  | fieldsRequired
  | sessionNotFound
  | sessionNotActive
  | timerExpired
  | invalidQuestionSequence
  | invalidOptionForQuestion
  | ok
deriving DecidableEq, Repr

/-- `{ ...drafts, [questionId]: sel }`: update in place when the key exists,
append otherwise (JS object spread keeps the original insertion position of
an existing key). -/
def draftSet (drafts : List (String × String)) (qid sel : String) :
    List (String × String) :=
  if drafts.any (fun p => p.1 == qid) then
    drafts.map (fun p => if p.1 == qid then (p.1, sel) else p)
  else
    drafts ++ [(qid, sel)]

/-- `POST /session/:token/autosave` from src/routes/assessment.js. -/
def autosaveRoute (db : DBState) (token : String) (bodyQuestionId : String)
    (bodySelected : String) (now : Int) : DBState × AutosaveResp :=
  let questionId := sanitizeText bodyQuestionId
  let selectedOriginalId := sanitizeText bodySelected
  if questionId = "" || selectedOriginalId = "" then
    (db, .fieldsRequired)
  else
    match findSession db token with
    | none => (db, .sessionNotFound)
    | some session =>
      if session.status != "active" then
        (db, .sessionNotActive)
      else if getRemainingMs session now ≤ 0 then
        let (db1, _) := finalizeSession db session true "timer_expired" now
        (db1, .timerExpired)
      else
        let currentIndex := session.answers.length
        match session.questions_snapshot[currentIndex]? with
        | none => (db, .invalidQuestionSequence)
        | some expectedQuestion =>
          if expectedQuestion.id != questionId then
            (db, .invalidQuestionSequence)
          else if !(expectedQuestion.distractors.any
              (fun d => d.originalId == selectedOriginalId)) then
            (db, .invalidOptionForQuestion)
          else
            let newDrafts := draftSet session.draft_answers questionId
              selectedOriginalId
            (updateSession db token (fun r =>
              { r with draft_answers := newDrafts }), .ok)

/-- Responses of `POST /session/:token/submit`. -/
inductive SubmitResp where
  | sessionNotFound
  | submitted (vis : VisPayload)
deriving DecidableEq, Repr

/-- `POST /session/:token/submit` from src/routes/assessment.js. -/
def submitRoute (db : DBState) (token : String) (autoSubmitted : Bool)
    (now : Int) : DBState × SubmitResp :=
  match findSession db token with
  | none => (db, .sessionNotFound)
  | some session =>
    let (db1, result) := finalizeSession db session autoSubmitted
      (if autoSubmitted then "auto_submit" else "manual_submit") now
    (db1, .submitted
      (resultVisibilityPayload (resultsReleased db1 session.assessment_id)
        result))

/-- `[arr[i], arr[j]] = [arr[j], arr[i]]` with the bounds check implicit in
JavaScript array indexing (both indices are always in bounds here). -/
def swapAt {α : Type} (a : Array α) (i j : Nat) : Array α :=
  if h : i < a.size ∧ j < a.size then a.swap ⟨i, h.1⟩ ⟨j, h.2⟩ else a

/-- The descending loop of `fisherYates`: at index `i+1` swap with
`j = Math.floor(Math.random() * (i + 2))`, modelled as `rand (i+1) % (i+2)`,
then continue at `i`; the loop stops before index 0. -/
def fyGo {α : Type} (rand : Nat → Nat) (a : Array α) : Nat → Array α
  | 0 => a
  | i + 1 => fyGo rand (swapAt a (i + 1) (rand (i + 1) % (i + 2))) i

/-- `fisherYates` from src/utils.js with the `Math.random()` draws supplied
by the oracle `rand`. -/
def fisherYates {α : Type} (rand : Nat → Nat) (input : List α) : List α :=
  (fyGo rand input.toArray (input.length - 1)).toList

/-- A raw bank option row (`bank_question_options`). -/
structure BankOption where
  option_key : String
  option_text : String
  is_correct : Bool
deriving DecidableEq, Repr

/-- A raw question row as returned by `fetchBankQuestions`. -/
structure BankQuestion where
  bank_code : String
  id : String
  category : String
  difficulty : String
  topic_tag : Option String
  stem : String
  explanation : String
  image : Option String
  options : List BankOption
deriving DecidableEq, Repr

/-- One entry of a parsed allocation plan (`parseDatasetAllocations` output:
`bankCode` non-empty, `count` a positive integer). -/
structure Allocation where
  bankCode : String
  count : Nat
deriving DecidableEq, Repr

/-- The per-bank draw loop of `selectQuestionsForAssessment`
(src/routes/assessment.js lines 275-281): for each plan entry fetch the
bank's rows, fail on a shortfall, otherwise keep a shuffled prefix of the
requested size. `banks` models `fetchBankQuestions`; `rands k` supplies the
randomness of the `k`-th `fisherYates` call. -/
def selectLoop (rands : Nat → Nat → Nat) (banks : String → List BankQuestion) :
    List Allocation → Nat → Except String (List BankQuestion × Nat)
  | [], k => .ok ([], k)
  | part :: rest, k =>
    let rows := banks part.bankCode
    if rows.length < part.count then
      .error ("insufficient_bank_questions:" ++ part.bankCode)
    else
      let chosen := (fisherYates (rands k) rows).take part.count
      match selectLoop rands banks rest (k + 1) with
      | .error e => .error e
      | .ok (tail, k2) => .ok (chosen ++ tail, k2)

/-- The branch of `selectQuestionsForAssessment` taken when the parsed
allocation plan is non-empty (src/routes/assessment.js lines 273-286):
draw per bank, fail with `allocation_sum_mismatch` when the drawn total
differs from the declared total, otherwise shuffle the merged draw. -/
def selectWithAllocations (rands : Nat → Nat → Nat)
    (banks : String → List BankQuestion) (allocations : List Allocation)
    (drawCount : Nat) : Except String (List BankQuestion) :=
  match selectLoop rands banks allocations 0 with
  | .error e => .error e
  | .ok (selected, k) =>
    if selected.length ≠ drawCount then .error "allocation_sum_mismatch"
    else .ok (fisherYates (rands k) selected)

/-- `buildSessionQuestions` from src/routes/assessment.js: per question,
shuffle the options and relabel them `A`, `B`, ... in shuffled order while
keeping the stable `option_key` as `originalId`. `rands q` supplies the
randomness of the option shuffle of the `q`-th question. -/
def buildSessionQuestions (rands : Nat → Nat → Nat)
    (rawQuestions : List BankQuestion) : List SnapshotQuestion :=
  (rawQuestions.enum).map (fun qi =>
    let q := qi.2
    let shuffledOptions := (fisherYates (rands qi.1) q.options).enum.map
      (fun oi =>
        { displayLabel := String.mk [Char.ofNat (65 + oi.1)]
          originalId := oi.2.option_key
          text := oi.2.option_text
          correct := oi.2.is_correct : Distractor })
    { id := q.id
      bank_code := q.bank_code
      category := q.category
      difficulty := q.difficulty
      topic_tag := jsOptOrNull q.topic_tag
      stem := q.stem
      explanation := q.explanation
      image := q.image
      distractors := shuffledOptions })

/-- The numeric value of one hexadecimal digit, if the character is one. -/
def hexDigitVal (c : Char) : Option Nat :=
  if c.isDigit then some (c.toNat - 48)
  else if c ≥ Char.ofNat 97 && c ≤ Char.ofNat 102 then some (c.toNat - 87)
  else if c ≥ Char.ofNat 65 && c ≤ Char.ofNat 70 then some (c.toNat - 55)
  else none

/-- `Buffer.from(str, "hex")`: decode pairs of hex digits into bytes,
stopping at the first pair that is not two hex digits (a trailing unpaired
character is dropped). -/
def hexDecode : List Char → List Nat
  | c1 :: c2 :: rest =>
    match hexDigitVal c1, hexDigitVal c2 with
    | some hi, some lo => (16 * hi + lo) :: hexDecode rest
    | _, _ => []
  | _ => []

/-- JavaScript `str.split(sep)` for a one-character separator, on the
character list of the string. -/
def jsSplitChar (sep : Char) : List Char → List (List Char)
  | [] => [[]]
  | c :: rest =>
    if c == sep then [] :: jsSplitChar sep rest
    else
      match jsSplitChar sep rest with
      | [] => [[c]]
      | g :: gs => (c :: g) :: gs

/-- `hashSecret` from src/utils.js with the random salt and
`crypto.scryptSync(input, salt, 64).toString("hex")` supplied explicitly:
`scrypt input salt` is the derived 64-byte hex string. -/
def hashSecret (scrypt : String → String → String) (salt : String)
    (value : String) : String :=
  "scrypt$" ++ salt ++ "$" ++ scrypt value salt

/-- `verifySecret` from src/utils.js: a stored hash without the `scrypt$`
marker is compared to the candidate verbatim; otherwise the stored salt is
re-applied and the derived keys are compared byte-wise
(`crypto.timingSafeEqual` after a length check). `String.startsWith` and
`String.split("$")` are computed on the character lists. -/
def verifySecret (scrypt : String → String → String) (value storedHash : String) :
    Bool :=
  if !("scrypt$".data.isPrefixOf storedHash.data) then storedHash == value
  else
    let parts := jsSplitChar '$' storedHash.data
    if parts.length ≠ 3 then false
    else
      let salt := String.mk (parts.getD 1 [])
      let expected := parts.getD 2 []
      let actual := (scrypt value salt).data
      let a := hexDecode actual
      let b := hexDecode expected
      if a.length ≠ b.length then false else a == b

/-- One snapshot question of the admin-file variant (`buildSessionQuestions`
in the second module of src/routes/admin.js): camel-cased bank code and a
plain-string topic tag. -/
structure AdmQuestion where
  id : String
  bankCode : String
  category : String
  topicTag : String
  difficulty : String
  stem : String
  explanation : String
  image : Option String
  distractors : List Distractor
deriving DecidableEq, Repr

/-- A `sessions` row as used by the admin-file variant (disconnect counter,
student email, result access token, separate window end). -/
structure AdmSession where
  token : String
  seed : String
  assessment_id : String
  student_name : String
  student_id : String
  student_email : String
  started_at : Int
  expires_at : Int
  window_end_at : Option Int
  created_at : Int
  result_access_token : String
  status : String
  question_order : List String
  questions_snapshot : List AdmQuestion
  answers : List AnswerEntry
  disconnect_count : Nat
  last_disconnect_at : Option Int
  score : Option Nat
  total : Option Nat
  submitted_at : Option Int
  auto_submitted : Bool
  terminated_reason : Option String
deriving DecidableEq, Repr

/-- An `assessments` row as read by the admin-file variant's `/auth/start`
(`bank_allocations` is stored parsed, `window_start`/`window_end` are NOT
NULL in this variant's schema). -/
structure AdmAssessment where
  id : String
  code : String
  title : String
  status : String
  window_start : Int
  window_end : Int
  duration_minutes : Nat
  passcode_hash : Option String
  passcode : String
  allow_retakes : Nat
  draw_count : Nat
  bank_code : String
  bank_allocations : List Allocation
  results_released : Bool
deriving DecidableEq, Repr

/-- Per-question entry of the admin-file variant's `result_payload`. -/
structure AdmDetailRow where
  questionId : String
  bankCode : String
  topicTag : String
  difficulty : String
  stem : String
  selectedOriginalId : String
  selectedLabel : String
  selectedText : String
  correctOriginalId : String
  correctLabel : String
  correctText : String
  explanation : String
  isCorrect : Bool
deriving DecidableEq, Repr

/-- The student block of the admin-file variant's payload. -/
structure AdmStudentInfo where
  fullName : String
  studentId : String
  email : String
deriving DecidableEq, Repr

/-- The admin-file variant's `result_payload`. -/
structure AdmResultPayload where
  token : String
  seed : String
  resultAccessToken : Option String
  assessmentCode : String
  assessmentTitle : String
  student : AdmStudentInfo
  score : Nat
  total : Nat
  percentage : Nat
  timeTakenMs : Int
  violationCount : Nat
  submittedAt : Int
  autoSubmitted : Bool
  terminatedReason : Option String
  details : List AdmDetailRow
deriving DecidableEq, Repr

/-- A `submissions` row of the admin-file variant. -/
structure AdmSubmissionRow where
  session_token : String
  assessment_id : String
  student_name : String
  student_id : String
  student_email : String
  score : Nat
  total : Nat
  percentage : Nat
  time_taken_ms : Int
  violation_count : Nat
  auto_submitted : Bool
  result_payload : AdmResultPayload
deriving DecidableEq, Repr

/-- Database state of the admin-file variant's session routes. -/
structure AdmDB where
  assessments : List AdmAssessment
  sessions : List AdmSession
  submissions : List AdmSubmissionRow
  violation_events : List ViolationEvent
deriving DecidableEq, Repr

/-- `SELECT * FROM sessions WHERE token = $1` (admin-file variant). -/
def admFindSession (db : AdmDB) (token : String) : Option AdmSession :=
  db.sessions.find? (fun s => s.token == token)

/-- `UPDATE sessions ... WHERE token = $1` (admin-file variant). -/
def admUpdateSession (db : AdmDB) (token : String)
    (f : AdmSession → AdmSession) : AdmDB :=
  let rows := db.sessions.map (fun s => if s.token == token then f s else s)
  { db with sessions := rows }

/-- `SELECT result_payload FROM submissions WHERE session_token = $1`. -/
def admFindSubmission (db : AdmDB) (token : String) :
    Option AdmSubmissionRow :=
  db.submissions.find? (fun r => r.session_token == token)

/-- `SELECT COUNT(*) FROM violation_events WHERE session_token = $1`. -/
def admCountViolations (db : AdmDB) (token : String) : Nat :=
  (db.violation_events.filter (fun v => v.session_token == token)).length

/-- The admin-file variant's submissions upsert (`ON CONFLICT
(session_token) DO UPDATE SET student_email, score, ..., result_payload`). -/
def admUpsertSubmission (db : AdmDB) (row : AdmSubmissionRow) : AdmDB :=
  if db.submissions.any (fun r => r.session_token == row.session_token) then
    let rows := db.submissions.map (fun r =>
      if r.session_token == row.session_token then
        { r with student_email := row.student_email,
                 score := row.score, total := row.total,
                 percentage := row.percentage,
                 time_taken_ms := row.time_taken_ms,
                 violation_count := row.violation_count,
                 auto_submitted := row.auto_submitted,
                 result_payload := row.result_payload }
      else r)
    { db with submissions := rows }
  else
    { db with submissions := db.submissions ++ [row] }

/-- `getRemainingMs` of the admin-file variant (same formula). -/
def admGetRemainingMs (s : AdmSession) (now : Int) : Int :=
  max 0 (s.expires_at - now)

/-- The answer lookup of the admin-file variant's `finalizeSession`:
`new Map(answers.map(a => [a.questionId, a.selectedOriginalId]))`, then
`answerMap.get(q.id) || null` at use. -/
def admSelectedIdFor (s : AdmSession) (qid : String) : Option String :=
  match s.answers.reverse.find? (fun a => a.questionId == qid) with
  | some a => jsOptOrNull a.selectedOriginalId
  | none => none

/-- The per-question result row of the admin-file variant's
`finalizeSession` (lines 543-565 of src/routes/admin.js). -/
def admDetailFor (s : AdmSession) (q : AdmQuestion) : AdmDetailRow :=
  let selectedId := admSelectedIdFor s q.id
  let selected : Option Distractor :=
    match selectedId with
    | some sid => q.distractors.find? (fun d => d.originalId == sid)
    | none => none
  let correct : Option Distractor := q.distractors.find? (fun d => d.correct)
  let isCorrect : Bool :=
    match selected, correct with
    | some a, some b => a.originalId == b.originalId
    | _, _ => false
  { questionId := q.id
    bankCode := q.bankCode
    topicTag := q.topicTag
    difficulty := q.difficulty
    stem := q.stem
    selectedOriginalId := match selected with
                          | some d => d.originalId
                          | none => ""
    selectedLabel := match selected with
                     | some d => d.displayLabel
                     | none => ""
    selectedText := match selected with
                    | some d => d.text
                    | none => "Unanswered"
    correctOriginalId := match correct with
                         | some d => d.originalId
                         | none => ""
    correctLabel := match correct with
                    | some d => d.displayLabel
                    | none => ""
    correctText := match correct with
                   | some d => d.text
                   | none => "N/A"
    explanation := q.explanation
    isCorrect := isCorrect }

/-- The `details` array of the admin-file variant's `finalizeSession`. -/
def admGradeDetails (s : AdmSession) : List AdmDetailRow :=
  s.questions_snapshot.map (admDetailFor s)

/-- The accumulated score of the admin-file variant's `finalizeSession`. -/
def admGradeScore (s : AdmSession) : Nat :=
  (admGradeDetails s).countP (fun d => d.isCorrect)

/-- `finalizeSession` of the admin-file variant (src/routes/admin.js lines
523-648): same idempotent early return, `terminated_reason` kept via
`COALESCE`, and the assessment's `results_released` flag returned along with
the payload. -/
def admFinalizeSession (db : AdmDB) (s : AdmSession) (autoSubmitted : Bool)
    (terminatedReason : Option String) (now : Int) :
    AdmDB × (Option AdmResultPayload × Bool) :=
  let released :=
    match db.assessments.find? (fun a => a.id == s.assessment_id) with
    | some a => a.results_released
    | none => false
  let assessmentCode :=
    match db.assessments.find? (fun a => a.id == s.assessment_id) with
    | some a => a.code
    | none => ""
  let assessmentTitle :=
    match db.assessments.find? (fun a => a.id == s.assessment_id) with
    | some a => a.title
    | none => ""
  if s.status == "submitted" then
    (db, ((admFindSubmission db s.token).map (fun r => r.result_payload),
      released))
  else
    let score := admGradeScore s
    let details := admGradeDetails s
    let total := s.question_order.length
    let percentage := percentageOf score total
    let timeTakenMs := max 0 (now - s.started_at)
    let violationCount := admCountViolations db s.token
    let resultPayload : AdmResultPayload :=
      { token := s.token
        seed := s.seed
        resultAccessToken := jsStrOrNull s.result_access_token
        assessmentCode := assessmentCode
        assessmentTitle := assessmentTitle
        student := { fullName := s.student_name, studentId := s.student_id,
                     email := s.student_email }
        score := score
        total := total
        percentage := percentage
        timeTakenMs := timeTakenMs
        violationCount := violationCount
        submittedAt := now
        autoSubmitted := autoSubmitted
        terminatedReason := terminatedReason
        details := details }
    let db1 := admUpdateSession db s.token (fun r =>
      { r with status := "submitted"
               submitted_at := some now
               score := some score
               total := some total
               auto_submitted := autoSubmitted
               terminated_reason :=
                 match terminatedReason with
                 | some x => some x
                 | none => r.terminated_reason })
    let db2 := admUpsertSubmission db1
      { session_token := s.token
        assessment_id := s.assessment_id
        student_name := s.student_name
        student_id := s.student_id
        student_email := s.student_email
        score := score
        total := total
        percentage := percentage
        time_taken_ms := timeTakenMs
        violation_count := violationCount
        auto_submitted := autoSubmitted
        result_payload := resultPayload }
    (db2, (some resultPayload, released))

/-- `buildSubmittedResponse(resultPayload, resultsReleased)` of the
admin-file variant. -/
inductive AdmVis where
  | released (result : Option AdmResultPayload)
  | pending (token : Option String) (submittedAt : Option Int)
deriving DecidableEq, Repr

/-- `buildSubmittedResponse` (src/routes/admin.js lines 511-521). -/
def buildSubmittedResponse (resultPayload : Option AdmResultPayload)
    (resultsReleased : Bool) : AdmVis :=
  if resultsReleased then .released resultPayload
  else .pending (resultPayload.map (fun r => r.token))
    (resultPayload.map (fun r => r.submittedAt))

/-- `toQuestionForClient` of the admin-file variant (no topic tag in the
client question). -/
structure AdmClientQuestion where
  id : String
  category : String
  difficulty : String
  stem : String
  image : Option String
  options : List ClientOption
deriving DecidableEq, Repr

/-- The payload of the admin-file variant's `toQuestionForClient`. -/
structure AdmClientQuestionPayload where
  token : String
  questionIndex : Nat
  totalQuestions : Nat
  progressLabel : String
  question : AdmClientQuestion
deriving DecidableEq, Repr

/-- `toQuestionForClient(session, index)` of the admin-file variant. -/
def admToQuestionForClient (s : AdmSession) (index : Nat) :
    Option AdmClientQuestionPayload :=
  match s.questions_snapshot[index]? with
  | none => none
  | some question =>
    some
      { token := s.token
        questionIndex := index
        totalQuestions := s.question_order.length
        progressLabel := "Question " ++ toString (index + 1) ++ " of " ++
          toString s.question_order.length
        question :=
          { id := question.id
            category := question.category
            difficulty := question.difficulty
            stem := question.stem
            image := question.image
            options := question.distractors.map (fun d =>
              { displayLabel := d.displayLabel
                originalId := d.originalId
                text := d.text }) } }

/-- Responses of the admin-file variant's `GET /session/:token/question`. -/
inductive AdmQuestionResp where
  | sessionNotFound
  | sessionNotActive
  | timerExpired (vis : AdmVis)
  | completed (vis : AdmVis)
  | ok (remainingMs : Int) (payload : AdmClientQuestionPayload)
deriving DecidableEq, Repr

/-- `GET /session/:token/question` of the admin-file variant
(src/routes/admin.js lines 1000-1034). -/
def admQuestionRoute (db : AdmDB) (token : String) (now : Int) :
    AdmDB × AdmQuestionResp :=
  match admFindSession db token with
  | none => (db, .sessionNotFound)
  | some session =>
    if session.status != "active" then
      (db, .sessionNotActive)
    else if admGetRemainingMs session now ≤ 0 then
      let (db1, fin) := admFinalizeSession db session true
        (some "timer_expired") now
      (db1, .timerExpired (buildSubmittedResponse fin.1 fin.2))
    else
      let index := session.answers.length
      match admToQuestionForClient session index with
      | none =>
        let (db1, fin) := admFinalizeSession db session false
          (some "completed") now
        (db1, .completed (buildSubmittedResponse fin.1 fin.2))
      | some payload =>
        (db, .ok (admGetRemainingMs session now) payload)

/-- Responses of `POST /session/:token/disconnect`. -/
inductive AdmDisconnectResp where
  | sessionNotFound
  | alreadySubmitted
  | terminated (disconnectCount : Nat) (vis : AdmVis)
  | counted (disconnectCount : Nat)
deriving DecidableEq, Repr

/-- `POST /session/:token/disconnect` of the admin-file variant
(src/routes/admin.js lines 1134-1168): under the session row lock, bump the
disconnect counter, log a `disconnect` violation event, and force-finalize
with reason `second_disconnect` once the counter reaches 2. -/
def admDisconnectRoute (db : AdmDB) (token : String) (now : Int) :
    AdmDB × AdmDisconnectResp :=
  match admFindSession db token with
  | none => (db, .sessionNotFound)
  | some session =>
    if session.status != "active" then
      (db, .alreadySubmitted)
    else
      let nextCount := session.disconnect_count + 1
      let db1 := admUpdateSession db token (fun r =>
        { r with disconnect_count := nextCount,
                 last_disconnect_at := some now })
      let db2 := { db1 with violation_events := db1.violation_events ++
        [{ session_token := token, event_type := "disconnect",
           details := "disconnect_count=" ++ toString nextCount,
           question_index := none }] }
      if nextCount ≥ 2 then
        let (db3, fin) := admFinalizeSession db2
          { session with disconnect_count := nextCount } true
          (some "second_disconnect") now
        (db3, .terminated nextCount (buildSubmittedResponse fin.1 fin.2))
      else
        (db2, .counted nextCount)

/-- `normalizeEmail` (src/routes/admin.js line 438); `.toLowerCase()` is
spelled as a character-wise map so that it evaluates structurally. -/
def normalizeEmail (value : String) : String :=
  String.mk ((sanitizeText value).data.map Char.toLower)

/-- JavaScript `Number(x || d)` for a natural-valued column: 0/null fall
back to the default. -/
def jsNatOr (d n : Nat) : Nat :=
  if n = 0 then d else n

/-- `parseAllocations` (src/routes/admin.js lines 442-454): the stored
normalized plan when non-empty, otherwise a single-bank fallback drawn from
`bank_code`/`draw_count`. -/
def parseAllocations (assessment : AdmAssessment) : List Allocation :=
  if assessment.bank_allocations ≠ [] then assessment.bank_allocations
  else
    [{ bankCode := (sanitizeText
         (if assessment.bank_code = "" then "default"
          else assessment.bank_code)).toLower,
       count := max 1 assessment.draw_count }]

/-- `buildSessionQuestions` of the admin-file variant (lines 456-477). -/
def admBuildSessionQuestions (rands : Nat → Nat → Nat)
    (rawQuestions : List BankQuestion) : List AdmQuestion :=
  (rawQuestions.enum).map (fun qi =>
    let q := qi.2
    let shuffledOptions := (fisherYates (rands qi.1) q.options).enum.map
      (fun oi =>
        { displayLabel := String.mk [Char.ofNat (65 + oi.1)]
          originalId := oi.2.option_key
          text := oi.2.option_text
          correct := oi.2.is_correct : Distractor })
    { id := q.id
      bankCode := q.bank_code
      category := q.category
      topicTag := match q.topic_tag with
                  | some t => t
                  | none => ""
      difficulty := q.difficulty
      stem := q.stem
      explanation := q.explanation
      image := q.image
      distractors := shuffledOptions })

/-- The per-allocation draw loop of the admin-file variant's `/auth/start`
(lines 877-889): shuffle the bank's pool, fail on a shortfall with the
requested and available counts, else keep the prefix. -/
def admSelectLoop (rands : Nat → Nat → Nat)
    (banks : String → List BankQuestion) :
    List Allocation → Nat → Except (String × Nat × Nat)
      (List BankQuestion × Nat)
  | [], k => .ok ([], k)
  | part :: rest, k =>
    let pool := fisherYates (rands k) (banks part.bankCode)
    if pool.length < part.count then
      .error (part.bankCode, part.count, pool.length)
    else
      match admSelectLoop rands banks rest (k + 1) with
      | .error e => .error e
      | .ok (tail, k2) => .ok (pool.take part.count ++ tail, k2)

/-- Responses of the admin-file variant's `POST /auth/start`. -/
inductive AdmStartResp where
  | tooManyLoginAttempts
  | fieldsRequired
  | invalidEmail
  | assessmentNotFound
  | assessmentNotActive
  | assessmentNotOpen (opensInMs : Int)
  | assessmentClosed
  | invalidPasscode
  | attemptLimitReached (attempts : Nat)
  | terminatedAfterSecondDisconnect (vis : AdmVis)
  | timerExpiredExisting (vis : AdmVis)
  | resumed (token : String) (startedAt expiresAt : Int)
  | insufficientQuestionsInBank (bankCode : String)
      (requested available : Nat)
  | questionBankEmpty
  | created (token seed : String) (startedAt expiresAt : Int)
deriving DecidableEq, Repr

/-- `POST /auth/start` of the admin-file variant (src/routes/admin.js lines
698-971).  External effects are explicit parameters: `limiterAllowed` is the
rate-limit verdict, `emailValid` the `EMAIL_RE` test of the normalized
email, `scrypt` the key-derivation function, `banks` the grouped
`bank_questions` rows, `rands`/`optionRands` the shuffle randomness, and
`newToken`/`newSeed`/`newAccessToken` the fresh `crypto.randomUUID()`
values. -/
def admAuthStart (db : AdmDB) (banks : String → List BankQuestion)
    (scrypt : String → String → String) (rands optionRands : Nat → Nat → Nat)
    (limiterAllowed emailValid : Bool)
    (bodyFullName bodyStudentId bodyEmail bodyPasscode bodyAssessmentCode : String)
    (newToken newSeed newAccessToken : String) (now : Int) :
    AdmDB × AdmStartResp :=
  if !limiterAllowed then
    (db, .tooManyLoginAttempts)
  else
    let fullName := sanitizeText bodyFullName
    let studentId := sanitizeText bodyStudentId
    let studentEmail := normalizeEmail bodyEmail
    let passcode := sanitizeText bodyPasscode
    let assessmentCode := sanitizeText bodyAssessmentCode
    if fullName = "" || studentId = "" || studentEmail = "" then
      (db, .fieldsRequired)
    else if !emailValid then
      (db, .invalidEmail)
    else
      match db.assessments.find? (fun a =>
        (assessmentCode == "" && a.status == "active") ||
          a.code == assessmentCode) with
      | none => (db, .assessmentNotFound)
      | some assessment =>
        if assessment.status != "active" then
          (db, .assessmentNotActive)
        else if now < assessment.window_start then
          (db, .assessmentNotOpen (assessment.window_start - now))
        else if now > assessment.window_end then
          (db, .assessmentClosed)
        else
          let passcodeOk :=
            match assessment.passcode_hash with
            | some h => verifySecret scrypt passcode h
            | none => assessment.passcode == passcode
          if !passcodeOk then
            (db, .invalidPasscode)
          else
            let attempts := (db.submissions.filter (fun r =>
              r.assessment_id == assessment.id &&
                r.student_id == studentId)).length
            if attempts > assessment.allow_retakes then
              (db, .attemptLimitReached attempts)
            else
              match (db.sessions.filter (fun s =>
                s.assessment_id == assessment.id &&
                  s.student_id == studentId &&
                  s.status == "active")).head? with
              | some existing =>
                if existing.disconnect_count ≥ 2 then
                  let (db1, fin) := admFinalizeSession db existing true
                    (some "second_disconnect") now
                  (db1, .terminatedAfterSecondDisconnect
                    (buildSubmittedResponse fin.1 fin.2))
                else if admGetRemainingMs existing now ≤ 0 then
                  let (db1, fin) := admFinalizeSession db existing true
                    (some "timer_expired") now
                  (db1, .timerExpiredExisting
                    (buildSubmittedResponse fin.1 fin.2))
                else
                  let db1 :=
                    if existing.disconnect_count = 0 then
                      admUpdateSession db existing.token (fun r =>
                        { r with disconnect_count := 1,
                                 last_disconnect_at := some now,
                                 student_email := studentEmail })
                    else db
                  let db2 := { db1 with violation_events :=
                    db1.violation_events ++
                      [{ session_token := existing.token,
                         event_type := "reconnect_resume",
                         details := "session resumed after disconnect",
                         question_index := none }] }
                  (db2, .resumed existing.token existing.started_at
                    existing.expires_at)
              | none =>
                let allocations := parseAllocations assessment
                match admSelectLoop rands banks allocations 0 with
                | .error e =>
                  (db, .insufficientQuestionsInBank e.1 e.2.1 e.2.2)
                | .ok (selected, k) =>
                  if selected.isEmpty then
                    (db, .questionBankEmpty)
                  else
                    let snapshot := admBuildSessionQuestions optionRands
                      (fisherYates (rands k) selected)
                    let personalEndMs := now +
                      (jsNatOr 60 assessment.duration_minutes) * 60 * 1000
                    let expiresAtMs :=
                      min personalEndMs assessment.window_end
                    if expiresAtMs ≤ now then
                      (db, .assessmentClosed)
                    else
                      let newSession : AdmSession :=
                        { token := newToken
                          seed := newSeed
                          assessment_id := assessment.id
                          student_name := fullName
                          student_id := studentId
                          student_email := studentEmail
                          started_at := now
                          expires_at := expiresAtMs
                          window_end_at := some assessment.window_end
                          created_at := now
                          result_access_token := newAccessToken
                          status := "active"
                          question_order := snapshot.map (fun q => q.id)
                          questions_snapshot := snapshot
                          answers := []
                          disconnect_count := 0
                          last_disconnect_at := none
                          score := none
                          total := none
                          submitted_at := none
                          auto_submitted := false
                          terminated_reason := none }
                      ({ db with sessions := db.sessions ++ [newSession] },
                        .created newToken newSeed now expiresAtMs)

/-- The expiry computation of the canonical `/auth/start`
(src/routes/assessment.js lines 447-451): `personalEnd = now + durationMs`,
`effectiveEnd = windowEnd && windowEnd < personalEnd ? windowEnd :
personalEnd`. -/
def effectiveEndMs (now durationMs : Int) (windowEnd : Option Int) : Int :=
  let personalEnd := now + durationMs
  match windowEnd with
  | some w => if w < personalEnd then w else personalEnd
  | none => personalEnd

/-- Number of `submissions` rows stored for a session token. -/
def countSubmissionsFor (db : DBState) (token : String) : Nat :=
  (db.submissions.filter (fun r => r.session_token == token)).length

/-- The sequential-answer invariant of the specification:
`answers.length ≤ questions_snapshot.length` and the `i`-th logged answer is
for the `i`-th snapshot question. -/
def SeqInv (s : Session) : Prop :=
  s.answers.length ≤ s.questions_snapshot.length ∧
  ∀ i, i < s.answers.length →
    (s.answers.getD i { questionId := "", selectedOriginalId := none }).questionId =
      (s.questions_snapshot.getD i
        { id := "", bank_code := "", category := "", difficulty := "",
          topic_tag := none, stem := "", explanation := "", image := none,
          distractors := [] }).id

instance (s : Session) : Decidable (SeqInv s) := by
  unfold SeqInv
  exact instDecidableAnd

/-- The specification's scoring predicate for one question: the stored
selection matches the original stable option key of the snapshot's
flagged-correct option. -/
def specIsCorrect (q : SnapshotQuestion) (sel : Option String) : Bool :=
  match sel, q.distractors.find? (fun d => d.correct) with
  | some k, some c => c.originalId == k
  | _, _ => false

/-- Replace every display label of a session's snapshot by an arbitrary
per-position label (question index, option index ↦ new label), leaving the
stable option keys, texts and correctness flags untouched. -/
def relabelSession (newLabel : Nat → Nat → String) (s : Session) : Session :=
  { s with questions_snapshot := s.questions_snapshot.enum.map (fun qi =>
      { qi.2 with distractors := qi.2.distractors.enum.map (fun di =>
          { di.2 with displayLabel := newLabel qi.1 di.1 }) }) }

/-- Replace every correctness flag of a session's snapshot by an arbitrary
per-position flag (question index, option index ↦ flag), leaving everything
the client can see untouched. -/
def withCorrectFlags (flags : Nat → Nat → Bool) (s : Session) : Session :=
  { s with questions_snapshot := s.questions_snapshot.enum.map (fun qi =>
      { qi.2 with distractors := qi.2.distractors.enum.map (fun di =>
          { di.2 with correct := flags qi.1 di.1 }) }) }
/-- A transposition of two in-bounds positions of a list is a permutation. -/
theorem set_set_perm {α : Type} [DecidableEq α] (l : List α) (i j : Nat)
    (hi : i < l.length) (hj : j < l.length) :
    ((l.set i l[j]).set j l[i]).Perm l := by
  rw [List.perm_iff_count]
  intro b
  have hj1 : j < (l.set i l[j]).length := by simpa using hj
  have hgj : (l.set i l[j])[j] = l[j] := by
    rw [List.getElem_set]
    split <;> simp_all
  rw [List.count_set _ _ _ _ hj1, hgj, List.count_set _ _ _ _ hi]
  have hcl : (if (l[i] == b) = true then 1 else 0) ≤ List.count b l := by
    split
    · next hbe =>
      have hmem : l[i] ∈ l := List.getElem_mem hi
      have : b ∈ l := by
        have : l[i] = b := by simpa using hbe
        rwa [this] at hmem
      have := List.count_pos_iff.mpr this
      omega
    · omega
  omega

/-- `Array.swap` (hence `swapAt`) permutes the underlying list. -/
theorem swapAt_perm {α : Type} [DecidableEq α] (a : Array α) (i j : Nat) :
    (swapAt a i j).toList.Perm a.toList := by
  unfold swapAt
  split
  · next h =>
    rw [Array.toList_swap]
    have hi : i < a.toList.length := by simpa using h.1
    have hj : j < a.toList.length := by simpa using h.2
    have hgi : a.get ⟨i, h.1⟩ = a.toList[i] := rfl
    have hgj : a.get ⟨j, h.2⟩ = a.toList[j] := rfl
    rw [hgi, hgj]
    exact set_set_perm a.toList i j hi hj
  · exact List.Perm.refl _

/-- The whole swap loop permutes the underlying list. -/
theorem fyGo_perm {α : Type} [DecidableEq α] (rand : Nat → Nat) :
    ∀ (n : Nat) (a : Array α), (fyGo rand a n).toList.Perm a.toList
  | 0, _ => List.Perm.refl _
  | n + 1, a =>
    List.Perm.trans
      (fyGo_perm rand n (swapAt a (n + 1) (rand (n + 1) % (n + 2))))
      (swapAt_perm a (n + 1) (rand (n + 1) % (n + 2)))

/-- `fisherYates` returns a permutation of its input, whatever the random
draws were. -/
theorem fisherYates_perm {α : Type} [DecidableEq α] (rand : Nat → Nat)
    (input : List α) : (fisherYates rand input).Perm input := by
  unfold fisherYates
  have h := fyGo_perm rand (input.length - 1) input.toArray
  simpa using h


/-- Updating the rows matching `p` with a `p`-preserving function commutes
with `find?`. -/
theorem find?_map_update {α : Type} (p : α → Bool) (f : α → α) (l : List α)
    (hf : ∀ a, p a = true → p (f a) = true) :
    (l.map (fun a => if p a then f a else a)).find? p = (l.find? p).map f := by
  induction l with
  | nil => rfl
  | cons x xs ih =>
    simp only [List.map_cons]
    by_cases h : p x = true
    · rw [if_pos h, List.find?_cons_of_pos _ (hf x h),
        List.find?_cons_of_pos _ h]
      rfl
    · rw [if_neg h, List.find?_cons_of_neg _ (by simpa using h),
        List.find?_cons_of_neg _ (by simpa using h)]
      exact ih

/-- `updateSession` commutes with `findSession` for token-preserving row
updates. -/
theorem findSession_updateSession (db : DBState) (t : String)
    (f : Session → Session) (hf : ∀ s, (f s).token = s.token) :
    findSession (updateSession db t f) t = (findSession db t).map f := by
  unfold findSession updateSession
  exact find?_map_update _ _ _ (fun a ha => by rw [hf a]; exact ha)

/-- `upsertSubmission` does not touch the sessions table. -/
theorem findSession_upsertSubmission (db : DBState) (row : SubmissionRow)
    (t : String) :
    findSession (upsertSubmission db row) t = findSession db t := by
  unfold upsertSubmission
  split <;> rfl

/-- `updateSession` does not touch the submissions table. -/
theorem countSubmissionsFor_updateSession (db : DBState) (t : String)
    (f : Session → Session) (t2 : String) :
    countSubmissionsFor (updateSession db t f) t2 = countSubmissionsFor db t2 :=
  rfl

/-- `updateSession` does not touch the assessments table. -/
theorem resultsReleased_updateSession (db : DBState) (t : String)
    (f : Session → Session) (aid : String) :
    resultsReleased (updateSession db t f) aid = resultsReleased db aid :=
  rfl

/-- `upsertSubmission` does not touch the assessments table. -/
theorem resultsReleased_upsertSubmission (db : DBState) (row : SubmissionRow)
    (aid : String) :
    resultsReleased (upsertSubmission db row) aid = resultsReleased db aid := by
  unfold upsertSubmission
  split <;> rfl

/-- Splitting a list that opens with a separator-free block followed by the
separator yields that block as the first group. -/
theorem jsSplitChar_append_sep (sep : Char) (xs ys : List Char)
    (hxs : ∀ c ∈ xs, c ≠ sep) :
    jsSplitChar sep (xs ++ sep :: ys) = xs :: jsSplitChar sep ys := by
  induction xs with
  | nil => simp [jsSplitChar]
  | cons c rest ih =>
    have hc : c ≠ sep := hxs c (by simp)
    have hrest : ∀ x ∈ rest, x ≠ sep := fun x hx => hxs x (by simp [hx])
    simp only [List.cons_append, jsSplitChar, beq_iff_eq, if_neg hc,
      List.append_eq, ih hrest]

/-- Splitting a separator-free list yields a single group. -/
theorem jsSplitChar_no_sep (sep : Char) (xs : List Char)
    (hxs : ∀ c ∈ xs, c ≠ sep) :
    jsSplitChar sep xs = [xs] := by
  induction xs with
  | nil => rfl
  | cons c rest ih =>
    have hc : c ≠ sep := hxs c (by simp)
    have hrest : ∀ x ∈ rest, x ≠ sep := fun x hx => hxs x (by simp [hx])
    simp only [jsSplitChar, beq_iff_eq, if_neg hc, ih hrest]

/-- C10: if the stored hash does not carry the `scrypt$` marker,
`verifySecret` is verbatim plaintext comparison; with the marker produced by
`hashSecret`, verification of the original value succeeds — `verifySecret(s,
hashSecret(s))` is true for every value `s` (for any key-derivation function
and any `$`-free salt, as produced by `randomBytes(...).toString("hex")`). -/
theorem verifySecret_plaintext_and_roundtrip :
    (∀ (scrypt : String → String → String) (value storedHash : String),
      ("scrypt$".data.isPrefixOf storedHash.data) = false →
      (verifySecret scrypt value storedHash = true ↔ storedHash = value)) ∧
    (∀ (scrypt : String → String → String) (salt value : String),
      (∀ c ∈ salt.data, c ≠ '$') →
      (∀ c ∈ (scrypt value salt).data, c ≠ '$') →
      verifySecret scrypt value (hashSecret scrypt salt value) = true) := by
  constructor
  · intro scrypt value storedHash h
    unfold verifySecret
    rw [h]
    simp [beq_iff_eq]
  · intro scrypt salt value hsalt hd
    have hdata : (hashSecret scrypt salt value).data =
        "scrypt".data ++ '$' :: (salt.data ++ '$' :: (scrypt value salt).data) := by
      unfold hashSecret
      simp [String.data_append]
    have hpre : ("scrypt$".data.isPrefixOf
        (hashSecret scrypt salt value).data) = true := by
      rw [List.isPrefixOf_iff_prefix, hdata]
      have h7 : ("scrypt$".data : List Char) = "scrypt".data ++ ['$'] := by
        decide
      have h8 : "scrypt".data ++ '$' ::
          (salt.data ++ '$' :: (scrypt value salt).data) =
          ("scrypt".data ++ ['$']) ++
            (salt.data ++ '$' :: (scrypt value salt).data) := by
        simp
      rw [h7, h8]
      exact List.prefix_append _ _
    have hsplit : jsSplitChar '$' (hashSecret scrypt salt value).data =
        ["scrypt".data, salt.data, (scrypt value salt).data] := by
      rw [hdata, jsSplitChar_append_sep _ _ _ (by decide),
        jsSplitChar_append_sep _ _ _ hsalt, jsSplitChar_no_sep _ _ hd]
    unfold verifySecret
    rw [hpre]
    simp only [Bool.not_true, Bool.false_eq_true, if_false, hsplit]
    norm_num

/-- Witness for C10 at a concrete key-derivation function, salt and value. -/
theorem verifySecret_plaintext_and_roundtrip_witness :
    (verifySecret (fun _ _ => "ab") "x" "x" = true ↔ ("x" : String) = "x") ∧
    verifySecret (fun _ _ => "ab") "x"
      (hashSecret (fun _ _ => "ab") "cd" "x") = true :=
  ⟨verifySecret_plaintext_and_roundtrip.1 (fun _ _ => "ab") "x" "x"
      (by decide),
   verifySecret_plaintext_and_roundtrip.2 (fun _ _ => "ab") "cd" "x"
      (by decide) (by decide)⟩

/-- Mapping a function that ignores the indices over an enumerated list. -/
theorem map_enum_snd {α β : Type} (g : α → β) (l : List α) :
    l.enum.map (fun p => g p.2) = l.map g := by
  rw [show (fun p : Nat × α => g p.2) = g ∘ Prod.snd from rfl, ← List.map_map,
    List.enum_map_snd]

/-- C8: the payload served by `toQuestionForClient` carries no correctness
information: flipping the `correct` flags of the snapshot arbitrarily (any
two snapshots differing only in which options are flagged correct) leaves
the client-visible question payload — display label, original key and text
of each option — literally identical, at every question index. -/
theorem toQuestionForClient_correctness_noninterference
    (flags : Nat → Nat → Bool) (s : Session) (i : Nat) :
    toQuestionForClient (withCorrectFlags flags s) i = toQuestionForClient s i := by
  unfold toQuestionForClient withCorrectFlags
  simp only [List.getElem?_map, List.getElem?_enum]
  cases h : s.questions_snapshot[i]? with
  | none => rfl
  | some q =>
    simp only [Option.map_some']
    simp [Function.comp_def]
    exact map_enum_snd
      (fun d => ({ displayLabel := d.displayLabel, originalId := d.originalId,
                   text := d.text } : ClientOption)) q.distractors

/-- Counting with a function that ignores the indices over an enumerated
list. -/
theorem countP_enum_snd {α : Type} (g : α → Bool) (l : List α) :
    l.enum.countP (fun p => g p.2) = l.countP g := by
  conv_rhs => rw [← List.enum_map_snd l]
  rw [List.countP_map]
  rfl

/-- Searching a transformed enumerated list and projecting the result is
searching the original list, when predicate and projection ignore the
index. -/
theorem find?_enumFrom_map_proj {α β γ : Type} (f : Nat × α → β)
    (p : β → Bool) (proj : β → γ) (q : α → Bool) (pr : α → γ)
    (hq : ∀ i a, p (f (i, a)) = q a) (hpr : ∀ i a, proj (f (i, a)) = pr a) :
    ∀ (l : List α) (n : Nat),
      (((l.enumFrom n).map f).find? p).map proj = (l.find? q).map pr
  | [], _ => rfl
  | x :: xs, n => by
    simp only [List.enumFrom, List.map_cons]
    by_cases hx : q x = true
    · rw [List.find?_cons_of_pos _ (by rw [hq]; exact hx),
        List.find?_cons_of_pos _ hx]
      simp [hpr]
    · rw [List.find?_cons_of_neg _ (by rw [hq]; simpa using hx),
        List.find?_cons_of_neg _ (by simpa using hx)]
      exact find?_enumFrom_map_proj f p proj q pr hq hpr xs (n + 1)

/-- The scoring flag computed by `finalizeSession` for one question agrees
with the specification's predicate: match of stable option keys. -/
theorem detailFor_isCorrect (s : Session) (q : SnapshotQuestion) :
    (detailFor s q).isCorrect = specIsCorrect q (selectedIdFor s q.id) := by
  unfold detailFor specIsCorrect
  cases hsel : selectedIdFor s q.id with
  | none =>
    cases q.distractors.find? (fun d => d.correct) <;> simp
  | some sid =>
    cases hc : q.distractors.find? (fun d => d.correct) with
    | none =>
      cases q.distractors.find? (fun d => d.originalId == sid) <;> simp
    | some c =>
      cases hfs : q.distractors.find? (fun d => d.originalId == sid) with
      | none =>
        have hcn : (c.originalId == sid) = false := by
          by_cases hcc : c.originalId = sid
          · exfalso
            have hmem := List.mem_of_find?_eq_some hc
            have hnone := List.find?_eq_none.mp hfs c hmem
            rw [hcc] at hnone
            simp at hnone
          · simpa using hcc
        simp [hfs, hcn]
      | some a =>
        have ha : a.originalId = sid := by
          have := List.find?_some hfs
          simpa using this
        simp only [hfs]
        rw [ha]
        by_cases h2 : c.originalId = sid
        · simp [h2]
        · simp [h2, Ne.symm h2]

/-- `finalizeSession`'s accumulated score equals the specification's count:
the number of snapshot questions whose stored selection matches the
flagged-correct option by stable key. -/
theorem gradeScore_eq_specScore (s : Session) :
    gradeScore s =
      s.questions_snapshot.countP
        (fun q => specIsCorrect q (selectedIdFor s q.id)) := by
  unfold gradeScore gradeDetails
  rw [List.countP_map]
  exact List.countP_congr (fun q _ => by
    rw [Function.comp_apply, detailFor_isCorrect])

/-- `specIsCorrect` only looks at the projection of the flagged-correct
option to its stable key. -/
theorem specIsCorrect_eq_proj (q : SnapshotQuestion) (sel : Option String) :
    specIsCorrect q sel =
      (match sel,
        (q.distractors.find? (fun d => d.correct)).map
          (fun d => d.originalId) with
      | some k, some o => o == k
      | _, _ => false) := by
  unfold specIsCorrect
  cases sel <;> cases q.distractors.find? (fun d => d.correct) <;> rfl

/-- Searching a transformed enumerated list (from index 0) and projecting,
when predicate and projection ignore the index. -/
theorem find?_enum_map_proj {α β γ : Type} (f : Nat × α → β)
    (p : β → Bool) (proj : β → γ) (q : α → Bool) (pr : α → γ)
    (hq : ∀ i a, p (f (i, a)) = q a) (hpr : ∀ i a, proj (f (i, a)) = pr a)
    (l : List α) :
    ((l.enum.map f).find? p).map proj = (l.find? q).map pr := by
  have h0 : l.enum = l.enumFrom 0 := rfl
  rw [h0]
  exact find?_enumFrom_map_proj f p proj q pr hq hpr l 0

/-- The stored-answer lookup ignores the snapshot field. -/
theorem selectedIdFor_snapshot_irrel (s : Session)
    (snap : List SnapshotQuestion) (qid : String) :
    selectedIdFor { s with questions_snapshot := snap } qid =
      selectedIdFor s qid := rfl

/-- Relabeling the display labels of every option leaves the score
untouched: grading never compares by display label. -/
theorem gradeScore_relabel (nl : Nat → Nat → String) (s : Session) :
    gradeScore (relabelSession nl s) = gradeScore s := by
  rw [gradeScore_eq_specScore, gradeScore_eq_specScore]
  unfold relabelSession
  simp only [selectedIdFor_snapshot_irrel]
  rw [List.countP_map]
  have mid : List.countP
      (fun p : Nat × SnapshotQuestion =>
        specIsCorrect p.2 (selectedIdFor s p.2.id))
      s.questions_snapshot.enum =
      List.countP (fun q => specIsCorrect q (selectedIdFor s q.id))
        s.questions_snapshot :=
    countP_enum_snd (fun q => specIsCorrect q (selectedIdFor s q.id))
      s.questions_snapshot
  rw [← mid]
  refine List.countP_congr ?_
  intro qi _
  simp only [Function.comp_apply]
  have hfind : ((qi.2.distractors.enum.map (fun di =>
      { di.2 with displayLabel := nl qi.1 di.1 })).find?
        (fun d => d.correct)).map (fun d => d.originalId) =
      (qi.2.distractors.find? (fun d => d.correct)).map
        (fun d => d.originalId) :=
    find?_enum_map_proj _ _ _ _ _ (fun _ _ => rfl) (fun _ _ => rfl)
      qi.2.distractors
  rw [specIsCorrect_eq_proj, specIsCorrect_eq_proj]
  rw [hfind]

/-- On a not-yet-submitted session, `finalizeSession` produces a payload
with the graded score, the snapshot total and the rounded percentage. -/
theorem finalizeSession_fields (db : DBState) (s : Session) (a : Bool)
    (r : String) (now : Int) (h : s.status ≠ "submitted") :
    ∃ db2 rp, finalizeSession db s a r now = (db2, some rp) ∧
      rp.score = gradeScore s ∧ rp.total = s.question_order.length ∧
      rp.percentage = percentageOf (gradeScore s) s.question_order.length := by
  unfold finalizeSession
  rw [if_neg (by simpa using h)]
  exact ⟨_, _, rfl, rfl, rfl, rfl⟩

/-- The most recent appended answer wins the per-question lookup. -/
theorem answersLookup_append_last (answers : List AnswerEntry) (qid : String)
    (v : Option String) :
    answersLookup (answers ++ [{ questionId := qid, selectedOriginalId := v }])
      qid = some (jsOptOrNull v) := by
  unfold answersLookup
  rw [List.reverse_append]
  simp

/-- C3: the score computed at finalize counts exactly the snapshot questions
whose stored selection matches the flagged-correct option by original stable
option key (`specIsCorrect` mentions only `originalId` and the `correct`
flag); display labels never matter (relabeling them arbitrarily leaves the
score unchanged); the persisted payload carries `score`, `total` and
`percentage = Math.round(score / total * 100)` (exact round-half-up,
`(200·score + total) / (2·total)`); and the answer lookup is last-write-wins
per question id. -/
theorem score_correctness :
    (∀ s : Session, gradeScore s =
      s.questions_snapshot.countP
        (fun q => specIsCorrect q (selectedIdFor s q.id))) ∧
    (∀ (nl : Nat → Nat → String) (s : Session),
      gradeScore (relabelSession nl s) = gradeScore s) ∧
    (∀ (db : DBState) (s : Session) (a : Bool) (r : String) (now : Int),
      s.status ≠ "submitted" →
      ∃ db2 rp, finalizeSession db s a r now = (db2, some rp) ∧
        rp.score = gradeScore s ∧ rp.total = s.question_order.length ∧
        rp.percentage =
          (if s.question_order.length = 0 then 0
           else (200 * gradeScore s + s.question_order.length) /
             (2 * s.question_order.length))) ∧
    (∀ (answers : List AnswerEntry) (qid : String) (v : Option String),
      answersLookup
        (answers ++ [{ questionId := qid, selectedOriginalId := v }]) qid =
        some (jsOptOrNull v)) :=
  ⟨gradeScore_eq_specScore, gradeScore_relabel,
   (fun db s a r now h => by
      obtain ⟨db2, rp, heq, h1, h2, h3⟩ := finalizeSession_fields db s a r now h
      exact ⟨db2, rp, heq, h1, h2, by rw [h3]; rfl⟩),
   answersLookup_append_last⟩

/-- Witness for C3: a concrete two-question session with one correct
selection grades to score 1 of 2, percentage 50. -/
theorem score_correctness_witness :
    ∃ db2 rp, finalizeSession ⟨[], [], [], []⟩
      ⟨"t", "sd", "a1", "stu", "id1", 0, 10, none, "active", ["b:q1", "b:q2"],
        [⟨"q1", "b", "cat", "easy", none, "s1", "e1", none,
           [⟨"A", "oa", "ta", false⟩, ⟨"B", "ob", "tb", true⟩]⟩,
         ⟨"q2", "b", "cat", "easy", none, "s2", "e2", none,
           [⟨"A", "oc", "tc", true⟩, ⟨"B", "od", "td", false⟩]⟩],
        [⟨"q1", some "ob"⟩], [], none, none, none, false, none⟩
      false "" 7 = (db2, some rp) ∧
      rp.score = gradeScore
        ⟨"t", "sd", "a1", "stu", "id1", 0, 10, none, "active", ["b:q1", "b:q2"],
          [⟨"q1", "b", "cat", "easy", none, "s1", "e1", none,
             [⟨"A", "oa", "ta", false⟩, ⟨"B", "ob", "tb", true⟩]⟩,
           ⟨"q2", "b", "cat", "easy", none, "s2", "e2", none,
             [⟨"A", "oc", "tc", true⟩, ⟨"B", "od", "td", false⟩]⟩],
          [⟨"q1", some "ob"⟩], [], none, none, none, false, none⟩ ∧
      rp.total = 2 ∧ rp.percentage = 50 := by
  obtain ⟨db2, rp, heq, h1, h2, h3⟩ := score_correctness.2.2.1 ⟨[], [], [], []⟩
    ⟨"t", "sd", "a1", "stu", "id1", 0, 10, none, "active", ["b:q1", "b:q2"],
      [⟨"q1", "b", "cat", "easy", none, "s1", "e1", none,
         [⟨"A", "oa", "ta", false⟩, ⟨"B", "ob", "tb", true⟩]⟩,
       ⟨"q2", "b", "cat", "easy", none, "s2", "e2", none,
         [⟨"A", "oc", "tc", true⟩, ⟨"B", "od", "td", false⟩]⟩],
      [⟨"q1", some "ob"⟩], [], none, none, none, false, none⟩
    false "" 7 (by decide)
  refine ⟨db2, rp, heq, h1, by simpa using h2, ?_⟩
  rw [h3]
  norm_num
  rw [show gradeScore
      ⟨"t", "sd", "a1", "stu", "id1", 0, 10, none, "active", ["b:q1", "b:q2"],
        [⟨"q1", "b", "cat", "easy", none, "s1", "e1", none,
           [⟨"A", "oa", "ta", false⟩, ⟨"B", "ob", "tb", true⟩]⟩,
         ⟨"q2", "b", "cat", "easy", none, "s2", "e2", none,
           [⟨"A", "oc", "tc", true⟩, ⟨"B", "od", "td", false⟩]⟩],
        [⟨"q1", some "ob"⟩], [], none, none, none, false, none⟩ = 1 from by decide]

/-- No log entry for this question id means no `Map` entry from the log. -/
theorem answersLookup_eq_none (answers : List AnswerEntry) (qid : String)
    (h : ∀ a ∈ answers, a.questionId ≠ qid) :
    answersLookup answers qid = none := by
  unfold answersLookup
  have hn : answers.reverse.find? (fun a => a.questionId == qid) = none :=
    List.find?_eq_none.mpr (fun x hx => by
      have := h x (by simpa using hx)
      simpa using this)
  rw [hn]

/-- Appending an answer for a different question does not change the
lookup. -/
theorem answersLookup_append_ne (answers : List AnswerEntry)
    (e : AnswerEntry) (q2 : String) (h : e.questionId ≠ q2) :
    answersLookup (answers ++ [e]) q2 = answersLookup answers q2 := by
  unfold answersLookup
  rw [List.reverse_append]
  have : ([e].reverse ++ answers.reverse).find? (fun a => a.questionId == q2) =
      answers.reverse.find? (fun a => a.questionId == q2) := by
    simp only [List.reverse_singleton, List.singleton_append]
    rw [List.find?_cons_of_neg _ (by simpa using h)]
  rw [this]

/-- Removing the draft entries of one question id does not change the draft
lookup of another. -/
theorem draftLookup_filter_ne (drafts : List (String × String))
    (qid q2 : String) (h : q2 ≠ qid) :
    draftLookup (drafts.filter (fun p => p.1 != qid)) q2 =
      draftLookup drafts q2 := by
  unfold draftLookup
  induction drafts with
  | nil => rfl
  | cons x xs ih =>
    rw [List.filter_cons]
    by_cases hxq : x.1 = qid
    · rw [if_neg (by simp [hxq])]
      have hx2 : (x.1 == q2) = false := by
        rw [hxq]
        exact beq_eq_false_iff_ne.mpr (Ne.symm h)
      conv_rhs => rw [List.find?_cons]
      rw [hx2]
      exact ih
    · rw [if_pos (by simp [hxq])]
      by_cases hx : x.1 = q2
      · have hx2 : (x.1 == q2) = true := by simp [hx]
        simp only [List.find?_cons, hx2]
      · have hx2 : (x.1 == q2) = false := by simp [hx]
        simp only [List.find?_cons, hx2]
        exact ih

/-- `detailFor` only reads the session through the answer lookup. -/
theorem detailFor_congr (s s2 : Session) (q : SnapshotQuestion)
    (h : selectedIdFor s2 q.id = selectedIdFor s q.id) :
    detailFor s2 q = detailFor s q := by
  unfold detailFor
  rw [h]

/-- Moving a question's draft into the answer log: the appended entry now
answers that question's lookup, and every other lookup is unchanged. -/
theorem computeAnswerMapGet_draft_moved (s : Session) (qid sel : String)
    (q2 : String) :
    computeAnswerMapGet { s with answers := s.answers ++ [{ questionId := qid, selectedOriginalId := some sel }], draft_answers := s.draft_answers.filter (fun p => p.1 != qid) } q2 =
      (if q2 = qid then some (jsStrOrNull sel)
       else computeAnswerMapGet s q2) := by
  by_cases hq : q2 = qid
  · subst hq
    rw [if_pos rfl]
    unfold computeAnswerMapGet
    rw [answersLookup_append_last]
    rfl
  · rw [if_neg hq]
    unfold computeAnswerMapGet
    rw [answersLookup_append_ne _ _ _ (fun hc => hq (by simpa using hc.symm)),
      draftLookup_filter_ne _ _ _ hq]

/-- C9 (implicit): at finalize, an autosaved draft for a question that never
reached the append-only answer log is graded exactly as an appended answer
would be — the answer map, the detail list and the score are unchanged when
the draft is replayed into the log — and a logged answer always takes
precedence over any draft for the same question id. -/
theorem drafts_are_graded :
    (∀ (s : Session) (qid sel : String),
      (∀ a ∈ s.answers, a.questionId ≠ qid) →
      draftLookup s.draft_answers qid = some sel →
      computeAnswerMapGet s qid = some (jsStrOrNull sel) ∧
      gradeDetails { s with answers := s.answers ++ [{ questionId := qid, selectedOriginalId := some sel }], draft_answers := s.draft_answers.filter (fun p => p.1 != qid) } = gradeDetails s ∧
      gradeScore { s with answers := s.answers ++ [{ questionId := qid, selectedOriginalId := some sel }], draft_answers := s.draft_answers.filter (fun p => p.1 != qid) } = gradeScore s) ∧
    (∀ (s : Session) (q2 : String), (∃ a ∈ s.answers, a.questionId = q2) →
      computeAnswerMapGet s q2 = answersLookup s.answers q2) := by
  constructor
  · intro s qid sel hnot hdr
    have hfirst : computeAnswerMapGet s qid = some (jsStrOrNull sel) := by
      unfold computeAnswerMapGet
      rw [answersLookup_eq_none s.answers qid hnot, hdr]
    have hmap : ∀ q2, computeAnswerMapGet { s with answers := s.answers ++ [{ questionId := qid, selectedOriginalId := some sel }], draft_answers := s.draft_answers.filter (fun p => p.1 != qid) } q2 = computeAnswerMapGet s q2 := by
      intro q2
      rw [computeAnswerMapGet_draft_moved s qid sel q2]
      by_cases hq : q2 = qid
      · subst hq
        rw [if_pos rfl, hfirst]
      · rw [if_neg hq]
    have hdet : gradeDetails { s with answers := s.answers ++ [{ questionId := qid, selectedOriginalId := some sel }], draft_answers := s.draft_answers.filter (fun p => p.1 != qid) } = gradeDetails s := by
      unfold gradeDetails
      exact List.map_congr_left (fun q _ => detailFor_congr s _ q (by
        unfold selectedIdFor
        rw [hmap q.id]))
    exact ⟨hfirst, hdet, by unfold gradeScore; rw [hdet]⟩
  · intro s q2 hex
    obtain ⟨a, ha, haq⟩ := hex
    have hsome : ∃ x ∈ s.answers.reverse, (fun a => a.questionId == q2) x = true :=
      ⟨a, by simpa using ha, by simp [haq]⟩
    obtain ⟨b, hb⟩ := Option.isSome_iff_exists.mp (List.find?_isSome.mpr hsome)
    have hlook : answersLookup s.answers q2 =
        some (jsOptOrNull b.selectedOriginalId) := by
      unfold answersLookup
      rw [hb]
    unfold computeAnswerMapGet
    rw [hlook]

/-- Witness for C9: a concrete one-question session whose only selection is
an autosaved draft; the draft determines the lookup and replaying it into
the log leaves the score unchanged. -/
theorem drafts_are_graded_witness :
    computeAnswerMapGet (⟨"t", "sd", "a1", "stu", "id1", 0, 10, none, "active", ["b:q1"], [⟨"q1", "b", "cat", "easy", none, "s1", "e1", none, [⟨"A", "oa", "ta", false⟩, ⟨"B", "ob", "tb", true⟩]⟩], [], [("q1", "ob")], none, none, none, false, none⟩ : Session) "q1" = some (jsStrOrNull "ob") ∧
    gradeScore { (⟨"t", "sd", "a1", "stu", "id1", 0, 10, none, "active", ["b:q1"], [⟨"q1", "b", "cat", "easy", none, "s1", "e1", none, [⟨"A", "oa", "ta", false⟩, ⟨"B", "ob", "tb", true⟩]⟩], [], [("q1", "ob")], none, none, none, false, none⟩ : Session) with answers := ((⟨"t", "sd", "a1", "stu", "id1", 0, 10, none, "active", ["b:q1"], [⟨"q1", "b", "cat", "easy", none, "s1", "e1", none, [⟨"A", "oa", "ta", false⟩, ⟨"B", "ob", "tb", true⟩]⟩], [], [("q1", "ob")], none, none, none, false, none⟩ : Session)).answers ++ [{ questionId := "q1", selectedOriginalId := some "ob" }], draft_answers := ((⟨"t", "sd", "a1", "stu", "id1", 0, 10, none, "active", ["b:q1"], [⟨"q1", "b", "cat", "easy", none, "s1", "e1", none, [⟨"A", "oa", "ta", false⟩, ⟨"B", "ob", "tb", true⟩]⟩], [], [("q1", "ob")], none, none, none, false, none⟩ : Session)).draft_answers.filter (fun p => p.1 != "q1") } = gradeScore (⟨"t", "sd", "a1", "stu", "id1", 0, 10, none, "active", ["b:q1"], [⟨"q1", "b", "cat", "easy", none, "s1", "e1", none, [⟨"A", "oa", "ta", false⟩, ⟨"B", "ob", "tb", true⟩]⟩], [], [("q1", "ob")], none, none, none, false, none⟩ : Session) := by
  obtain ⟨h1, h2, h3⟩ := drafts_are_graded.1 (⟨"t", "sd", "a1", "stu", "id1", 0, 10, none, "active", ["b:q1"], [⟨"q1", "b", "cat", "easy", none, "s1", "e1", none, [⟨"A", "oa", "ta", false⟩, ⟨"B", "ob", "tb", true⟩]⟩], [], [("q1", "ob")], none, none, none, false, none⟩ : Session) "q1" "ob" (by decide) (by decide)
  exact ⟨h1, h3⟩

/-- `find?` commutes with mapping a function that cannot change the
predicate's verdict. -/
theorem find?_map_cond {α : Type} (q : α → Bool) (g : α → α) (l : List α)
    (hg : ∀ a, q (g a) = q a) :
    (l.map g).find? q = (l.find? q).map g := by
  induction l with
  | nil => rfl
  | cons x xs ih =>
    simp only [List.map_cons]
    by_cases hq : q x = true
    · rw [List.find?_cons_of_pos _ (by rw [hg]; exact hq),
        List.find?_cons_of_pos _ hq]
      rfl
    · rw [List.find?_cons_of_neg _ (by rw [hg]; simpa using hq),
        List.find?_cons_of_neg _ (by simpa using hq)]
      exact ih

/-- `updateSession` seen through any `findSession`, for token-preserving row
updates. -/
theorem findSession_updateSession_gen (db : DBState) (t : String)
    (f : Session → Session) (t2 : String) (hf : ∀ s, (f s).token = s.token) :
    findSession (updateSession db t f) t2 =
      (findSession db t2).map (fun s => if s.token == t then f s else s) := by
  unfold findSession updateSession
  exact find?_map_cond _ _ _ (fun a => by
    by_cases h : (a.token == t) = true
    · rw [if_pos h, hf]
    · rw [if_neg h])

/-- A session equal to another up to non-answer, non-snapshot fields
inherits the sequential invariant. -/
theorem seqInv_of_same (s s2 : Session) (ha : s2.answers = s.answers)
    (hq : s2.questions_snapshot = s.questions_snapshot) (h : SeqInv s) :
    SeqInv s2 := by
  unfold SeqInv at h ⊢
  rw [ha, hq]
  exact h

/-- The grading path of `finalizeSession` spelled out: a row update by
token (which touches neither `answers` nor `questions_snapshot`) followed by
the submissions upsert. -/
theorem finalizeSession_unfold (db : DBState) (s : Session) (a : Bool)
    (r : String) (now : Int) (hs : s.status ≠ "submitted") :
    ∃ row : SubmissionRow,
      finalizeSession db s a r now =
        (upsertSubmission (updateSession db s.token (fun rr =>
          { rr with status := "submitted", submitted_at := some now,
                    score := some (gradeScore s),
                    total := some s.question_order.length,
                    auto_submitted := a,
                    termination_reason :=
                      if r = "" then rr.termination_reason else some r }))
          row, some row.result_payload) ∧
      row.session_token = s.token := by
  unfold finalizeSession
  rw [if_neg (by simpa using hs)]
  exact ⟨_, rfl, rfl⟩

/-- Any session found after a `finalizeSession` call still satisfies the
sequential invariant it satisfied before: finalize never touches the answer
log or the snapshot. -/
theorem seqInv_after_finalize (db : DBState) (s : Session) (a : Bool)
    (r : String) (now : Int) (t2 : String) (s0 s1 : Session)
    (hf0 : findSession db t2 = some s0) (h0 : SeqInv s0)
    (h1 : findSession (finalizeSession db s a r now).1 t2 = some s1) :
    SeqInv s1 := by
  by_cases hs : s.status = "submitted"
  · unfold finalizeSession at h1
    rw [if_pos (by simpa using hs)] at h1
    rw [hf0] at h1
    cases h1
    exact h0
  · obtain ⟨row, heq, -⟩ := finalizeSession_unfold db s a r now hs
    rw [heq] at h1
    simp only [] at h1
    rw [findSession_upsertSubmission,
      findSession_updateSession_gen db s.token (fun rr =>
        { rr with status := "submitted", submitted_at := some now,
                  score := some (gradeScore s),
                  total := some s.question_order.length,
                  auto_submitted := a,
                  termination_reason :=
                    if r = "" then rr.termination_reason else some r })
        t2 (fun _ => rfl), hf0] at h1
    simp only [Option.map_some'] at h1
    cases h1
    split
    · exact seqInv_of_same _ _ rfl rfl h0
    · exact h0

/-- The session found by token indeed carries that token. -/
theorem findSession_token (db : DBState) (tok : String) (s : Session)
    (h : findSession db tok = some s) : (s.token == tok) = true := by
  unfold findSession at h
  have h2 := List.find?_some h
  exact h2

/-- Appending the answer for the snapshot question at the cursor preserves
the sequential invariant. -/
theorem seqInv_append (s : Session) (eq : SnapshotQuestion) (qid : String)
    (v : Option String) (hinv : SeqInv s)
    (hsnap : s.questions_snapshot[s.answers.length]? = some eq)
    (hid : eq.id = qid) :
    SeqInv { s with answers := s.answers ++
      [{ questionId := qid, selectedOriginalId := v }] } := by
  obtain ⟨hlen, hidx⟩ := hinv
  obtain ⟨hlt, hget⟩ := List.getElem?_eq_some.mp hsnap
  constructor
  · simpa using Nat.succ_le_of_lt hlt
  · intro i hi
    simp only [List.length_append, List.length_singleton] at hi
    by_cases hilt : i < s.answers.length
    · have h2 := hidx i hilt
      simp only [List.getD_eq_getElem?_getD,
        List.getElem?_append_left hilt] at h2 ⊢
      exact h2
    · have hieq : i = s.answers.length := by omega
      subst hieq
      simp only [List.getD_eq_getElem?_getD,
        List.getElem?_append_right (Nat.le_refl _), Nat.sub_self]
      have hq : s.questions_snapshot[s.answers.length]?.getD
          { id := "", bank_code := "", category := "", difficulty := "",
            topic_tag := none, stem := "", explanation := "", image := none,
            distractors := [] } = eq := by
        rw [hsnap]
        rfl
      rw [hq]
      simpa using hid.symm

/-- The answer-append row update seen through `findSession`. -/
theorem findSession_update_answers (db : DBState) (tok : String)
    (na : List AnswerEntry) (nd : List (String × String)) :
    findSession (updateSession db tok (fun r =>
      { r with answers := na, draft_answers := nd })) tok =
      (findSession db tok).map (fun s =>
        if s.token == tok then { s with answers := na, draft_answers := nd }
        else s) :=
  findSession_updateSession_gen db tok _ tok (fun _ => rfl)

/-- C2: the sequential answer invariant — `answers.length ≤
questions_snapshot.length` with `answers[i].questionId ==
questions_snapshot[i].id` at every index — is preserved by the answer-submit
transition (the only one that writes the log), and a submitted question id
differing from the snapshot question at the cursor position
`answers.length` is rejected with `invalid_question_sequence` leaving the
database untouched. -/
theorem sequential_answer_invariant :
    (∀ (db : DBState) (tok bodyQid : String) (bodySel : Option String)
       (now : Int) (s : Session),
      findSession db tok = some s → SeqInv s →
      ∀ s1, findSession (answerRoute db tok bodyQid bodySel now).1 tok =
        some s1 → SeqInv s1) ∧
    (∀ (db : DBState) (tok bodyQid : String) (bodySel : Option String)
       (now : Int) (s : Session) (eq : SnapshotQuestion),
      findSession db tok = some s → s.status = "active" →
      0 < getRemainingMs s now →
      s.questions_snapshot[s.answers.length]? = some eq →
      sanitizeText bodyQid ≠ "" → eq.id ≠ sanitizeText bodyQid →
      answerRoute db tok bodyQid bodySel now =
        (db, .invalidQuestionSequence)) := by
  constructor
  · intro db tok bodyQid bodySel now s hfind hinv s1 h1
    simp only [answerRoute] at h1
    split at h1
    · dsimp only at h1
      rw [hfind] at h1
      cases h1
      exact hinv
    · split at h1
      · next x hf2 =>
        rw [hfind] at hf2
        simp at hf2
      · next x ses hf2 =>
        rw [hfind] at hf2
        have hses : ses = s := (Option.some.inj hf2).symm
        subst hses
        clear hf2 x
        split at h1
        · dsimp only at h1
          rw [hfind] at h1
          cases h1
          exact hinv
        · split at h1
          · dsimp only at h1
            exact seqInv_after_finalize db ses true "timer_expired" now tok
              ses s1 hfind hinv h1
          · split at h1
            · dsimp only at h1
              exact seqInv_after_finalize db ses false "" now tok ses s1
                hfind hinv h1
            · next eq hsnap =>
              split at h1
              · dsimp only at h1
                rw [hfind] at h1
                cases h1
                exact hinv
              · next hneq =>
                split at h1
                · dsimp only at h1
                  rw [hfind] at h1
                  cases h1
                  exact hinv
                · have hid : eq.id = sanitizeText bodyQid := by
                    simpa using hneq
                  have happ : SeqInv { ses with answers := ses.answers ++ [{ questionId := sanitizeText bodyQid, selectedOriginalId := jsFalsyChain (bodySel.map sanitizeText) (draftLookup ses.draft_answers (sanitizeText bodyQid)) }] } :=
                    seqInv_append ses eq (sanitizeText bodyQid) _ hinv hsnap
                      hid
                  have hupd : findSession (updateSession db tok (fun r => { r with answers := ses.answers ++ [{ questionId := sanitizeText bodyQid, selectedOriginalId := jsFalsyChain (bodySel.map sanitizeText) (draftLookup ses.draft_answers (sanitizeText bodyQid)) }], draft_answers := ses.draft_answers.filter (fun p => p.1 != sanitizeText bodyQid) })) tok = some { ses with answers := ses.answers ++ [{ questionId := sanitizeText bodyQid, selectedOriginalId := jsFalsyChain (bodySel.map sanitizeText) (draftLookup ses.draft_answers (sanitizeText bodyQid)) }], draft_answers := ses.draft_answers.filter (fun p => p.1 != sanitizeText bodyQid) } := by
                    rw [findSession_update_answers, hfind, Option.map_some',
                      if_pos (findSession_token db tok ses hfind)]
                  split at h1
                  · dsimp only at h1
                    exact seqInv_after_finalize _ { ses with answers := ses.answers ++ [{ questionId := sanitizeText bodyQid, selectedOriginalId := jsFalsyChain (bodySel.map sanitizeText) (draftLookup ses.draft_answers (sanitizeText bodyQid)) }], draft_answers := ses.draft_answers.filter (fun p => p.1 != sanitizeText bodyQid) } false "" now tok { ses with answers := ses.answers ++ [{ questionId := sanitizeText bodyQid, selectedOriginalId := jsFalsyChain (bodySel.map sanitizeText) (draftLookup ses.draft_answers (sanitizeText bodyQid)) }], draft_answers := ses.draft_answers.filter (fun p => p.1 != sanitizeText bodyQid) } s1
                      hupd (seqInv_of_same _ _ rfl rfl happ) h1
                  · dsimp only at h1
                    rw [hupd] at h1
                    cases h1
                    exact seqInv_of_same _ _ rfl rfl happ
  · intro db tok bodyQid bodySel now s eq hfind hst hrem hsnap hqid hne
    have h1 : (s.status != "active") = false := by simp [hst]
    have h2 : ¬ (getRemainingMs s now ≤ 0) := by omega
    have h3 : (eq.id != sanitizeText bodyQid) = true := by simp [hne]
    simp [answerRoute, hqid, hfind, h1, h2, hsnap, h3]

/-- Witness for C2: submitting question id `q2` while the cursor points at
snapshot question `q1` is rejected with `invalid_question_sequence`. -/
theorem sequential_answer_invariant_witness :
    answerRoute ⟨[], [(⟨"t", "sd", "a1", "stu", "id1", 0, 10, none, "active", ["b:q1"], [⟨"q1", "b", "cat", "easy", none, "s1", "e1", none, [⟨"A", "oa", "ta", false⟩, ⟨"B", "ob", "tb", true⟩]⟩], [], [], none, none, none, false, none⟩ : Session)], [], []⟩ "t" "q2" none 5 =
      (⟨[], [(⟨"t", "sd", "a1", "stu", "id1", 0, 10, none, "active", ["b:q1"], [⟨"q1", "b", "cat", "easy", none, "s1", "e1", none, [⟨"A", "oa", "ta", false⟩, ⟨"B", "ob", "tb", true⟩]⟩], [], [], none, none, none, false, none⟩ : Session)], [], []⟩, .invalidQuestionSequence) :=
  sequential_answer_invariant.2 ⟨[], [(⟨"t", "sd", "a1", "stu", "id1", 0, 10, none, "active", ["b:q1"], [⟨"q1", "b", "cat", "easy", none, "s1", "e1", none, [⟨"A", "oa", "ta", false⟩, ⟨"B", "ob", "tb", true⟩]⟩], [], [], none, none, none, false, none⟩ : Session)], [], []⟩ "t" "q2" none 5 (⟨"t", "sd", "a1", "stu", "id1", 0, 10, none, "active", ["b:q1"], [⟨"q1", "b", "cat", "easy", none, "s1", "e1", none, [⟨"A", "oa", "ta", false⟩, ⟨"B", "ob", "tb", true⟩]⟩], [], [], none, none, none, false, none⟩ : Session)
    (⟨"q1", "b", "cat", "easy", none, "s1", "e1", none, [⟨"A", "oa", "ta", false⟩, ⟨"B", "ob", "tb", true⟩]⟩ : SnapshotQuestion) (by decide) (by decide) (by decide) (by decide) (by decide) (by decide)

/-- The session row as found after the grading path of `finalizeSession`:
status flipped to `submitted`, auto-submit flag and termination reason
recorded. -/
theorem findSession_after_finalize (db : DBState) (s : Session) (a : Bool)
    (r : String) (now : Int) (hs : s.status ≠ "submitted")
    (hfind : findSession db s.token = some s) :
    findSession (finalizeSession db s a r now).1 s.token =
      some { s with
              status := "submitted", submitted_at := some now,
              score := some (gradeScore s),
              total := some s.question_order.length,
              auto_submitted := a,
              termination_reason :=
                if r = "" then s.termination_reason else some r } := by
  obtain ⟨row, heq, -⟩ := finalizeSession_unfold db s a r now hs
  rw [heq]
  dsimp only
  rw [findSession_upsertSubmission,
    findSession_updateSession_gen db s.token (fun rr =>
      { rr with status := "submitted", submitted_at := some now,
                score := some (gradeScore s),
                total := some s.question_order.length,
                auto_submitted := a,
                termination_reason :=
                  if r = "" then rr.termination_reason else some r })
      s.token (fun _ => rfl), hfind, Option.map_some',
    if_pos (findSession_token db s.token s hfind)]

/-- C4: timer authority — remaining time is recomputed server-side as
`max(0, expires_at - now)`; when `expires_at` is in the past at a
question-fetch or answer-submit call, the call answers `timer_expired` and
the session row transitions to `submitted` with `auto_submitted = true` and
termination reason `timer_expired`, whatever the client believes. -/
theorem timer_authority :
    (∀ (s : Session) (now : Int),
      getRemainingMs s now = max 0 (s.expires_at - now)) ∧
    (∀ (db : DBState) (tok : String) (s : Session) (now : Int),
      findSession db tok = some s → s.status = "active" →
      s.expires_at < now →
      ∃ vis, (questionRoute db tok now).2 = .timerExpired vis ∧
        findSession (questionRoute db tok now).1 tok =
          some { s with
                  status := "submitted", submitted_at := some now,
                  score := some (gradeScore s),
                  total := some s.question_order.length,
                  auto_submitted := true,
                  termination_reason := some "timer_expired" }) ∧
    (∀ (db : DBState) (tok bodyQid : String) (bodySel : Option String)
       (s : Session) (now : Int),
      findSession db tok = some s → s.status = "active" →
      s.expires_at < now → sanitizeText bodyQid ≠ "" →
      ∃ res, (answerRoute db tok bodyQid bodySel now).2 = .timerExpired res ∧
        findSession (answerRoute db tok bodyQid bodySel now).1 tok =
          some { s with
                  status := "submitted", submitted_at := some now,
                  score := some (gradeScore s),
                  total := some s.question_order.length,
                  auto_submitted := true,
                  termination_reason := some "timer_expired" }) := by
  refine ⟨fun s now => rfl, ?_, ?_⟩
  · intro db tok s now hfind hst hexp
    have htokeq : s.token = tok := by
      have h2 := findSession_token db tok s hfind
      simpa using h2
    subst htokeq
    have hne : (s.status != "active") = false := by simp [hst]
    have hrem : getRemainingMs s now ≤ 0 := by
      unfold getRemainingMs
      omega
    have hroute : questionRoute db s.token now =
        ((finalizeSession db s true "timer_expired" now).1,
          .timerExpired (resultVisibilityPayload
            (resultsReleased (finalizeSession db s true "timer_expired" now).1
              s.assessment_id)
            (finalizeSession db s true "timer_expired" now).2)) := by
      simp [questionRoute, hfind, hne, hrem]
    rw [hroute]
    refine ⟨_, rfl, ?_⟩
    have hff := findSession_after_finalize db s true "timer_expired" now
      (by rw [hst]; decide) hfind
    simpa using hff
  · intro db tok bodyQid bodySel s now hfind hst hexp hqid
    have htokeq : s.token = tok := by
      have h2 := findSession_token db tok s hfind
      simpa using h2
    subst htokeq
    have hne : (s.status != "active") = false := by simp [hst]
    have hrem : getRemainingMs s now ≤ 0 := by
      unfold getRemainingMs
      omega
    have hroute : answerRoute db s.token bodyQid bodySel now =
        ((finalizeSession db s true "timer_expired" now).1,
          .timerExpired (finalizeSession db s true "timer_expired" now).2) := by
      simp [answerRoute, hqid, hfind, hne, hrem]
    rw [hroute]
    refine ⟨_, rfl, ?_⟩
    have hff := findSession_after_finalize db s true "timer_expired" now
      (by rw [hst]; decide) hfind
    simpa using hff

/-- Witness for C4: a concrete expired active session is finalized as
`timer_expired` with `auto_submitted = true` by the question fetch. -/
theorem timer_authority_witness :
    ∃ vis, (questionRoute ⟨[], [(⟨"t", "sd", "a1", "stu", "id1", 0, 10, none, "active", ["b:q1"], [⟨"q1", "b", "cat", "easy", none, "s1", "e1", none, [⟨"A", "oa", "ta", false⟩, ⟨"B", "ob", "tb", true⟩]⟩], [], [], none, none, none, false, none⟩ : Session)], [], []⟩ "t" 100).2 = .timerExpired vis ∧
      findSession (questionRoute ⟨[], [(⟨"t", "sd", "a1", "stu", "id1", 0, 10, none, "active", ["b:q1"], [⟨"q1", "b", "cat", "easy", none, "s1", "e1", none, [⟨"A", "oa", "ta", false⟩, ⟨"B", "ob", "tb", true⟩]⟩], [], [], none, none, none, false, none⟩ : Session)], [], []⟩ "t" 100).1 "t" =
        some { (⟨"t", "sd", "a1", "stu", "id1", 0, 10, none, "active", ["b:q1"], [⟨"q1", "b", "cat", "easy", none, "s1", "e1", none, [⟨"A", "oa", "ta", false⟩, ⟨"B", "ob", "tb", true⟩]⟩], [], [], none, none, none, false, none⟩ : Session) with status := "submitted", submitted_at := some 100, score := some (gradeScore (⟨"t", "sd", "a1", "stu", "id1", 0, 10, none, "active", ["b:q1"], [⟨"q1", "b", "cat", "easy", none, "s1", "e1", none, [⟨"A", "oa", "ta", false⟩, ⟨"B", "ob", "tb", true⟩]⟩], [], [], none, none, none, false, none⟩ : Session)), total := some ((⟨"t", "sd", "a1", "stu", "id1", 0, 10, none, "active", ["b:q1"], [⟨"q1", "b", "cat", "easy", none, "s1", "e1", none, [⟨"A", "oa", "ta", false⟩, ⟨"B", "ob", "tb", true⟩]⟩], [], [], none, none, none, false, none⟩ : Session)).question_order.length, auto_submitted := true, termination_reason := some "timer_expired" } :=
  timer_authority.2.1 ⟨[], [(⟨"t", "sd", "a1", "stu", "id1", 0, 10, none, "active", ["b:q1"], [⟨"q1", "b", "cat", "easy", none, "s1", "e1", none, [⟨"A", "oa", "ta", false⟩, ⟨"B", "ob", "tb", true⟩]⟩], [], [], none, none, none, false, none⟩ : Session)], [], []⟩ "t" (⟨"t", "sd", "a1", "stu", "id1", 0, 10, none, "active", ["b:q1"], [⟨"q1", "b", "cat", "easy", none, "s1", "e1", none, [⟨"A", "oa", "ta", false⟩, ⟨"B", "ob", "tb", true⟩]⟩], [], [], none, none, none, false, none⟩ : Session) 100 (by decide)
    (by decide) (by decide)

/-- Upserting a submission for a token with no stored row appends it:
exactly one row afterwards. -/
theorem countSubmissionsFor_upsert_new (db : DBState) (row : SubmissionRow)
    (h : countSubmissionsFor db row.session_token = 0) :
    countSubmissionsFor (upsertSubmission db row) row.session_token = 1 := by
  have hnil : db.submissions.filter
      (fun r => r.session_token == row.session_token) = [] := by
    have := h
    unfold countSubmissionsFor at this
    exact List.length_eq_zero.mp this
  have hany : db.submissions.any
      (fun r => r.session_token == row.session_token) = false := by
    rw [List.any_eq_false]
    intro x hx
    have := List.filter_eq_nil_iff.mp hnil x hx
    simpa using this
  unfold upsertSubmission
  rw [hany]
  simp only [Bool.false_eq_true, if_false]
  unfold countSubmissionsFor
  simp [List.filter_append, hnil]

/-- Upserting a submission for a token with no stored row makes it the row
found for that token. -/
theorem findSubmission_upsert_new (db : DBState) (row : SubmissionRow)
    (h : countSubmissionsFor db row.session_token = 0) :
    findSubmission (upsertSubmission db row) row.session_token = some row := by
  have hnil : db.submissions.filter
      (fun r => r.session_token == row.session_token) = [] := by
    have := h
    unfold countSubmissionsFor at this
    exact List.length_eq_zero.mp this
  have hany : db.submissions.any
      (fun r => r.session_token == row.session_token) = false := by
    rw [List.any_eq_false]
    intro x hx
    have := List.filter_eq_nil_iff.mp hnil x hx
    simpa using this
  have hnone : db.submissions.find?
      (fun r => r.session_token == row.session_token) = none :=
    List.find?_eq_none.mpr (fun x hx => by
      have := List.filter_eq_nil_iff.mp hnil x hx
      simpa using this)
  unfold upsertSubmission
  rw [hany]
  simp only [Bool.false_eq_true, if_false]
  unfold findSubmission
  rw [List.find?_append, hnone]
  simp

/-- `finalizeSession` never touches the assessments table. -/
theorem resultsReleased_after_finalize (db : DBState) (s : Session)
    (a : Bool) (r : String) (now : Int) (aid : String) :
    resultsReleased (finalizeSession db s a r now).1 aid =
      resultsReleased db aid := by
  by_cases hs : s.status = "submitted"
  · unfold finalizeSession
    rw [if_pos (by simpa using hs)]
  · obtain ⟨row, heq, -⟩ := finalizeSession_unfold db s a r now hs
    rw [heq]
    dsimp only
    rw [resultsReleased_upsertSubmission, resultsReleased_updateSession]

/-- `updateSession` never touches the submissions table. -/
theorem findSubmission_updateSession (db : DBState) (t : String)
    (f : Session → Session) (t2 : String) :
    findSubmission (updateSession db t f) t2 = findSubmission db t2 := rfl

/-- The idempotent early return of `finalizeSession`. -/
theorem finalizeSession_submitted (db : DBState) (s : Session) (a : Bool)
    (r : String) (now : Int) (hs : s.status = "submitted") :
    finalizeSession db s a r now =
      (db, (findSubmission db s.token).map (fun row => row.result_payload)) := by
  unfold finalizeSession
  rw [if_pos (by simpa using hs)]

/-- C1: finalize is idempotent and exactly-once. Calling `finalizeSession`
on an already-`submitted` session returns the persisted `result_payload`
with no database write (grading never re-runs); submitting an active
session once leaves exactly one `submissions` row for its token, and every
later submit call returns the identical stored payload without changing
the database. -/
theorem finalize_idempotent_exactly_once :
    (∀ (db : DBState) (s : Session) (a : Bool) (r : String) (now : Int),
      s.status = "submitted" →
      finalizeSession db s a r now =
        (db, (findSubmission db s.token).map (fun row => row.result_payload))) ∧
    (∀ (db : DBState) (tok : String) (s : Session) (a1 : Bool) (now1 : Int),
      findSession db tok = some s → s.status = "active" →
      countSubmissionsFor db tok = 0 →
      ∃ db1 rp,
        submitRoute db tok a1 now1 =
          (db1, .submitted (resultVisibilityPayload
            (resultsReleased db1 s.assessment_id) (some rp))) ∧
        countSubmissionsFor db1 tok = 1 ∧
        (findSubmission db1 tok).map (fun row => row.result_payload) =
          some rp ∧
        ∀ (a2 : Bool) (now2 : Int),
          submitRoute db1 tok a2 now2 =
            (db1, .submitted (resultVisibilityPayload
              (resultsReleased db1 s.assessment_id) (some rp)))) := by
  constructor
  · exact finalizeSession_submitted
  · intro db tok s a1 now1 hfind hst hcount
    have htokeq : s.token = tok := by
      have h2 := findSession_token db tok s hfind
      simpa using h2
    subst htokeq
    have hs : s.status ≠ "submitted" := by rw [hst]; decide
    obtain ⟨row, heq, hrowtok⟩ := finalizeSession_unfold db s a1
      (if a1 then "auto_submit" else "manual_submit") now1 hs
    have hroute : submitRoute db s.token a1 now1 =
        ((finalizeSession db s a1 (if a1 then "auto_submit" else "manual_submit") now1).1,
          .submitted (resultVisibilityPayload
            (resultsReleased (finalizeSession db s a1 (if a1 then "auto_submit" else "manual_submit") now1).1
              s.assessment_id)
            (finalizeSession db s a1 (if a1 then "auto_submit" else "manual_submit") now1).2)) := by
      simp [submitRoute, hfind]
    have hcount0 : countSubmissionsFor
        (updateSession db s.token (fun rr =>
          { rr with status := "submitted", submitted_at := some now1,
                    score := some (gradeScore s),
                    total := some s.question_order.length,
                    auto_submitted := a1,
                    termination_reason :=
                      if (if a1 then "auto_submit" else "manual_submit") = ""
                      then rr.termination_reason
                      else some (if a1 then "auto_submit" else "manual_submit") }))
        row.session_token = 0 := by
      rw [countSubmissionsFor_updateSession, hrowtok]
      exact hcount
    have hcount1 := countSubmissionsFor_upsert_new _ row hcount0
    rw [hrowtok] at hcount1
    have hfs := findSubmission_upsert_new _ row hcount0
    rw [hrowtok] at hfs
    have hfsub : findSubmission (finalizeSession db s a1 (if a1 then "auto_submit" else "manual_submit") now1).1
        s.token = some row := by
      rw [heq]
      exact hfs
    have hfind1 : findSession (finalizeSession db s a1 (if a1 then "auto_submit" else "manual_submit") now1).1 s.token =
        some { s with status := "submitted", submitted_at := some now1, score := some (gradeScore s), total := some s.question_order.length, auto_submitted := a1, termination_reason := if (if a1 then "auto_submit" else "manual_submit") = "" then s.termination_reason else some (if a1 then "auto_submit" else "manual_submit") } :=
      findSession_after_finalize db s a1 (if a1 then "auto_submit" else "manual_submit") now1 hs hfind
    have hrel : resultsReleased (finalizeSession db s a1 (if a1 then "auto_submit" else "manual_submit") now1).1
        s.assessment_id = resultsReleased db s.assessment_id :=
      resultsReleased_after_finalize db s a1 (if a1 then "auto_submit" else "manual_submit") now1 s.assessment_id
    refine ⟨(finalizeSession db s a1 (if a1 then "auto_submit" else "manual_submit") now1).1,
      row.result_payload, ?_, ?_, ?_, ?_⟩
    · rw [hroute, heq]
    · rw [heq]
      exact hcount1
    · rw [hfsub]
      rfl
    · intro a2 now2
      have hfin2 : finalizeSession (finalizeSession db s a1 (if a1 then "auto_submit" else "manual_submit") now1).1
          { s with status := "submitted", submitted_at := some now1, score := some (gradeScore s), total := some s.question_order.length, auto_submitted := a1, termination_reason := if (if a1 then "auto_submit" else "manual_submit") = "" then s.termination_reason else some (if a1 then "auto_submit" else "manual_submit") } a2 (if a2 then "auto_submit" else "manual_submit") now2 =
          ((finalizeSession db s a1 (if a1 then "auto_submit" else "manual_submit") now1).1,
            (findSubmission (finalizeSession db s a1 (if a1 then "auto_submit" else "manual_submit") now1).1
              s.token).map (fun r => r.result_payload)) := by
        exact finalizeSession_submitted _ _ a2
          (if a2 then "auto_submit" else "manual_submit") now2 rfl
      have hroute2 : submitRoute (finalizeSession db s a1 (if a1 then "auto_submit" else "manual_submit") now1).1
          s.token a2 now2 =
          ((finalizeSession db s a1 (if a1 then "auto_submit" else "manual_submit") now1).1,
            .submitted (resultVisibilityPayload
              (resultsReleased (finalizeSession db s a1 (if a1 then "auto_submit" else "manual_submit") now1).1
                s.assessment_id)
              ((findSubmission (finalizeSession db s a1 (if a1 then "auto_submit" else "manual_submit") now1).1
                s.token).map (fun r => r.result_payload)))) := by
        simp only [submitRoute, hfind1]
        rw [hfin2]
      rw [hroute2, hfsub, hrel]
      rfl

/-- Witness for C1: submitting a concrete active session yields one
submission row, and a repeat submit returns the identical stored payload
with no database change. -/
theorem finalize_idempotent_exactly_once_witness :
    ∃ db1 rp,
      submitRoute ⟨[], [(⟨"t", "sd", "a1", "stu", "id1", 0, 10, none, "active", ["b:q1"], [⟨"q1", "b", "cat", "easy", none, "s1", "e1", none, [⟨"A", "oa", "ta", false⟩, ⟨"B", "ob", "tb", true⟩]⟩], [⟨"q1", some "ob"⟩], [], none, none, none, false, none⟩ : Session)], [], []⟩ "t" false 3 =
        (db1, .submitted (resultVisibilityPayload
          (resultsReleased db1 "a1") (some rp))) ∧
      countSubmissionsFor db1 "t" = 1 ∧
      (findSubmission db1 "t").map (fun row => row.result_payload) =
        some rp ∧
      ∀ (a2 : Bool) (now2 : Int),
        submitRoute db1 "t" a2 now2 =
          (db1, .submitted (resultVisibilityPayload
            (resultsReleased db1 "a1") (some rp))) :=
  finalize_idempotent_exactly_once.2 ⟨[], [(⟨"t", "sd", "a1", "stu", "id1", 0, 10, none, "active", ["b:q1"], [⟨"q1", "b", "cat", "easy", none, "s1", "e1", none, [⟨"A", "oa", "ta", false⟩, ⟨"B", "ob", "tb", true⟩]⟩], [⟨"q1", some "ob"⟩], [], none, none, none, false, none⟩ : Session)], [], []⟩ "t" (⟨"t", "sd", "a1", "stu", "id1", 0, 10, none, "active", ["b:q1"], [⟨"q1", "b", "cat", "easy", none, "s1", "e1", none, [⟨"A", "oa", "ta", false⟩, ⟨"B", "ob", "tb", true⟩]⟩], [⟨"q1", some "ob"⟩], [], none, none, none, false, none⟩ : Session) false 3
    (by decide) (by decide) (by decide)

/-- With pairwise-distinct bank codes, filtering the plan by a member's code
isolates that member. -/
theorem filter_key_nodup :
    ∀ (l : List Allocation),
      (l.map (fun p => p.bankCode)).Nodup →
      ∀ p ∈ l, l.filter (fun x => x.bankCode == p.bankCode) = [p]
  | [], _, p, hp => absurd hp (List.not_mem_nil p)
  | q :: rest, hnd, p, hp => by
    have hnd2 : (rest.map (fun p => p.bankCode)).Nodup :=
      (List.nodup_cons.mp hnd).2
    have hqnot : q.bankCode ∉ rest.map (fun p => p.bankCode) :=
      (List.nodup_cons.mp hnd).1
    rcases List.mem_cons.mp hp with hpq | hpr
    · subst hpq
      rw [List.filter_cons, if_pos (by simp)]
      have hrest : rest.filter (fun x => x.bankCode == p.bankCode) = [] :=
        List.filter_eq_nil_iff.mpr (fun x hx => by
          intro hxb
          exact hqnot (List.mem_map.mpr ⟨x, hx, by simpa using hxb.symm⟩))
      rw [hrest]
    · have hqp : (q.bankCode == p.bankCode) = false := by
        have : q.bankCode ≠ p.bankCode := fun hc =>
          hqnot (List.mem_map.mpr ⟨p, hpr, hc.symm⟩)
        simpa using this
      rw [List.filter_cons, hqp]
      simp only [Bool.false_eq_true, if_false]
      exact filter_key_nodup rest hnd2 p hpr

/-- The per-bank draw loop succeeds when every bank is sufficient, drawing
exactly the requested number from each bank code. -/
theorem selectLoop_spec (rands : Nat → Nat → Nat)
    (banks : String → List BankQuestion)
    (hbank : ∀ c, ∀ q ∈ banks c, q.bank_code = c) :
    ∀ (allocations : List Allocation) (k : Nat),
      (∀ p ∈ allocations, p.count ≤ (banks p.bankCode).length) →
      ∃ sel k2, selectLoop rands banks allocations k = .ok (sel, k2) ∧
        sel.length = (allocations.map (fun p => p.count)).sum ∧
        ∀ c : String, sel.countP (fun q => q.bank_code == c) =
          ((allocations.filter (fun p => p.bankCode == c)).map
            (fun p => p.count)).sum
  | [], k, _ => ⟨[], k, rfl, rfl, fun c => rfl⟩
  | part :: rest, k, hsuff => by
    have hrows : ¬ ((banks part.bankCode).length < part.count) := by
      have := hsuff part (by simp)
      omega
    obtain ⟨tail, k2, hrec, hlen, hcount⟩ :=
      selectLoop_spec rands banks hbank rest (k + 1)
        (fun p hp => hsuff p (by simp [hp]))
    have hfy : (fisherYates (rands k) (banks part.bankCode)).length =
        (banks part.bankCode).length :=
      (fisherYates_perm (rands k) (banks part.bankCode)).length_eq
    have htakelen : ((fisherYates (rands k)
        (banks part.bankCode)).take part.count).length = part.count := by
      rw [List.length_take, hfy]
      have := hsuff part (by simp)
      omega
    have hmem : ∀ q ∈ (fisherYates (rands k)
        (banks part.bankCode)).take part.count,
        q.bank_code = part.bankCode := by
      intro q hq
      have h1 : q ∈ fisherYates (rands k) (banks part.bankCode) :=
        List.mem_of_mem_take hq
      have h2 : q ∈ banks part.bankCode :=
        ((fisherYates_perm (rands k) (banks part.bankCode)).mem_iff).mp h1
      exact hbank _ q h2
    refine ⟨(fisherYates (rands k) (banks part.bankCode)).take part.count ++
      tail, k2, ?_, ?_, ?_⟩
    · simp only [selectLoop]
      rw [if_neg hrows, hrec]
    · rw [List.length_append, hlen, htakelen, List.map_cons, List.sum_cons]
    · intro c
      rw [List.countP_append, hcount]
      by_cases hc : part.bankCode = c
      · have hall : ∀ q ∈ (fisherYates (rands k)
            (banks part.bankCode)).take part.count,
            (q.bank_code == c) = true := fun q hq => by
          simp [hmem q hq, hc]
        have hchosen : ((fisherYates (rands k)
            (banks part.bankCode)).take part.count).countP
            (fun q => q.bank_code == c) = part.count := by
          have h9 := List.countP_eq_length.mpr hall
          rw [h9, htakelen]
        rw [hchosen, List.filter_cons, if_pos (by simp [hc]),
          List.map_cons, List.sum_cons]
      · have hchosen : ((fisherYates (rands k)
            (banks part.bankCode)).take part.count).countP
            (fun q => q.bank_code == c) = 0 := by
          refine List.countP_eq_zero.mpr (fun q hq => ?_)
          have := hmem q hq
          simp [this, hc]
        rw [hchosen, List.filter_cons, if_neg (by simp [hc])]
        omega

/-- The snapshot builder is length-preserving. -/
theorem buildSessionQuestions_length (rands : Nat → Nat → Nat)
    (l : List BankQuestion) :
    (buildSessionQuestions rands l).length = l.length := by
  unfold buildSessionQuestions
  rw [List.length_map, List.enum_length]

/-- C7: allocation conservation — for a non-empty plan whose counts sum to
the declared total, with every referenced bank holding at least the
requested number of questions, the draw succeeds with exactly the declared
total of questions (hence a snapshot of that length), and exactly `count`
questions from each plan entry's bank; if the drawn total differs from the
declared total, selection fails with `allocation_sum_mismatch` instead. -/
theorem allocation_conservation (rands optionRands : Nat → Nat → Nat)
    (banks : String → List BankQuestion) (allocations : List Allocation)
    (drawCount : Nat) (_hne : allocations ≠ [])
    (hsuff : ∀ p ∈ allocations, p.count ≤ (banks p.bankCode).length)
    (hbank : ∀ c, ∀ q ∈ banks c, q.bank_code = c)
    (hnodup : (allocations.map (fun p => p.bankCode)).Nodup) :
    ((allocations.map (fun p => p.count)).sum = drawCount →
      ∃ sel, selectWithAllocations rands banks allocations drawCount =
          .ok sel ∧
        sel.length = drawCount ∧
        (buildSessionQuestions optionRands sel).length = drawCount ∧
        ∀ p ∈ allocations,
          (sel.filter (fun q => q.bank_code == p.bankCode)).length =
            p.count) ∧
    ((allocations.map (fun p => p.count)).sum ≠ drawCount →
      selectWithAllocations rands banks allocations drawCount =
        .error "allocation_sum_mismatch") := by
  obtain ⟨selected, k2, hloop, hlen, hcountc⟩ :=
    selectLoop_spec rands banks hbank allocations 0 hsuff
  constructor
  · intro hsum
    have hlend : selected.length = drawCount := by rw [hlen, hsum]
    refine ⟨fisherYates (rands k2) selected, ?_, ?_, ?_, ?_⟩
    · unfold selectWithAllocations
      rw [hloop]
      simp [hlend]
    · rw [(fisherYates_perm (rands k2) selected).length_eq, hlend]
    · rw [buildSessionQuestions_length,
        (fisherYates_perm (rands k2) selected).length_eq, hlend]
    · intro p hp
      rw [← List.countP_eq_length_filter,
        (fisherYates_perm (rands k2) selected).countP_eq, hcountc,
        filter_key_nodup allocations hnodup p hp]
      simp
  · intro hsum
    have hlend : selected.length ≠ drawCount := by rw [hlen]; exact hsum
    unfold selectWithAllocations
    rw [hloop]
    simp [hlend]

/-- Witness for C7: a two-bank plan of one question each draws exactly two
questions, one per bank. -/
theorem allocation_conservation_witness :
    ∃ sel, selectWithAllocations (fun _ _ => 0) (fun c => [⟨c, "q1", "cat", "easy", none, "s", "e", none, []⟩]) [⟨"b1", 1⟩, ⟨"b2", 1⟩] 2 = .ok sel ∧
      sel.length = 2 ∧
      (buildSessionQuestions (fun _ _ => 0) sel).length = 2 ∧
      ∀ p ∈ ([⟨"b1", 1⟩, ⟨"b2", 1⟩] : List Allocation),
        (sel.filter (fun q => q.bank_code == p.bankCode)).length = p.count :=
  (allocation_conservation (fun _ _ => 0) (fun _ _ => 0) (fun c => [⟨c, "q1", "cat", "easy", none, "s", "e", none, []⟩]) [⟨"b1", 1⟩, ⟨"b2", 1⟩] 2
    (by decide) (by decide)
    (fun c q hq => by
      simp only [List.mem_singleton] at hq
      subst hq
      rfl)
    (by decide)).1 (by decide)

/-- `admUpdateSession` seen through any `admFindSession`, for
token-preserving row updates. -/
theorem admFindSession_updateSession_gen (db : AdmDB) (t : String)
    (f : AdmSession → AdmSession) (t2 : String)
    (hf : ∀ s, (f s).token = s.token) :
    admFindSession (admUpdateSession db t f) t2 =
      (admFindSession db t2).map (fun s =>
        if s.token == t then f s else s) := by
  unfold admFindSession admUpdateSession
  exact find?_map_cond _ _ _ (fun a => by
    by_cases h : (a.token == t) = true
    · rw [if_pos h, hf]
    · rw [if_neg h])

/-- `admUpsertSubmission` does not touch the sessions table. -/
theorem admFindSession_upsertSubmission (db : AdmDB)
    (row : AdmSubmissionRow) (t : String) :
    admFindSession (admUpsertSubmission db row) t = admFindSession db t := by
  unfold admUpsertSubmission
  split <;> rfl

/-- The session found by token carries that token (admin-file variant). -/
theorem admFindSession_token (db : AdmDB) (tok : String) (s : AdmSession)
    (h : admFindSession db tok = some s) : (s.token == tok) = true := by
  unfold admFindSession at h
  have h2 := List.find?_some h
  exact h2

/-- The grading path of the admin-file `finalizeSession` spelled out. -/
theorem admFinalizeSession_unfold (db : AdmDB) (s : AdmSession) (a : Bool)
    (tr : Option String) (now : Int) (hs : s.status ≠ "submitted") :
    ∃ row : AdmSubmissionRow,
      admFinalizeSession db s a tr now =
        (admUpsertSubmission (admUpdateSession db s.token (fun rr =>
          { rr with status := "submitted", submitted_at := some now,
                    score := some (admGradeScore s),
                    total := some s.question_order.length,
                    auto_submitted := a,
                    terminated_reason :=
                      match tr with
                      | some x => some x
                      | none => rr.terminated_reason }))
          row, (some row.result_payload,
            match db.assessments.find? (fun x => x.id == s.assessment_id) with
            | some x => x.results_released
            | none => false)) ∧
      row.session_token = s.token := by
  unfold admFinalizeSession
  rw [if_neg (by simpa using hs)]
  exact ⟨_, rfl, rfl⟩

/-- The session row as found after the grading path of the admin-file
`finalizeSession`: any row stored under the finalized session's token is
flipped to `submitted` with the termination reason recorded (when one is
passed). -/
theorem admFindSession_after_finalize (db : AdmDB) (s : AdmSession)
    (a : Bool) (tr : Option String) (now : Int) (hs : s.status ≠ "submitted")
    (s0 : AdmSession) (hfind : admFindSession db s.token = some s0) :
    admFindSession (admFinalizeSession db s a tr now).1 s.token =
      some { s0 with
              status := "submitted", submitted_at := some now,
              score := some (admGradeScore s),
              total := some s.question_order.length,
              auto_submitted := a,
              terminated_reason :=
                match tr with
                | some x => some x
                | none => s0.terminated_reason } := by
  obtain ⟨row, heq, -⟩ := admFinalizeSession_unfold db s a tr now hs
  rw [heq]
  clear heq
  dsimp only
  rw [admFindSession_upsertSubmission,
    admFindSession_updateSession_gen db s.token (fun rr =>
      { rr with status := "submitted", submitted_at := some now,
                score := some (admGradeScore s),
                total := some s.question_order.length,
                auto_submitted := a,
                terminated_reason :=
                  match tr with
                  | some x => some x
                  | none => rr.terminated_reason })
      s.token (fun _ => rfl), hfind, Option.map_some',
    if_pos (admFindSession_token db s.token s0 hfind)]

/-- C6: disconnect termination policy of the admin-file lifecycle variant —
the disconnect signal bumps the counter and logs a `disconnect` violation
event; after one recorded disconnect the session stays `active` and a
reconnecting start resumes it; when the counter reaches the fixed threshold
2 the session is force-finalized with reason `second_disconnect`, and any
further session access finds it non-active. -/
theorem disconnect_termination :
    (∀ (db : AdmDB) (tok : String) (s : AdmSession) (now : Int),
      admFindSession db tok = some s → s.status = "active" →
      s.disconnect_count = 0 →
      ∃ db2, admDisconnectRoute db tok now = (db2, .counted 1) ∧
        db2.violation_events = db.violation_events ++
          [{ session_token := tok, event_type := "disconnect",
             details := "disconnect_count=1", question_index := none }] ∧
        ∀ s1, admFindSession db2 tok = some s1 →
          s1.status = "active" ∧ s1.disconnect_count = 1) ∧
    (∀ (db : AdmDB) (tok : String) (s : AdmSession) (now : Int),
      admFindSession db tok = some s → s.status = "active" →
      s.disconnect_count = 1 →
      ∃ db3 vis, admDisconnectRoute db tok now = (db3, .terminated 2 vis) ∧
        ∀ s1, admFindSession db3 tok = some s1 →
          s1.status = "submitted" ∧
          s1.terminated_reason = some "second_disconnect") ∧
    (∀ (db : AdmDB) (tok : String) (s : AdmSession) (now : Int),
      admFindSession db tok = some s → s.status = "submitted" →
      admQuestionRoute db tok now = (db, .sessionNotActive)) ∧
    (∀ (db : AdmDB) (banks : String → List BankQuestion)
       (scrypt : String → String → String) (rands ornds : Nat → Nat → Nat)
       (bodyFullName bodyStudentId bodyEmail bodyPasscode
         bodyAssessmentCode newToken newSeed newAccessToken : String)
       (now : Int) (assessment : AdmAssessment) (existing : AdmSession),
      sanitizeText bodyFullName ≠ "" → sanitizeText bodyStudentId ≠ "" →
      normalizeEmail bodyEmail ≠ "" →
      db.assessments.find? (fun a =>
        (sanitizeText bodyAssessmentCode == "" && a.status == "active") ||
          a.code == sanitizeText bodyAssessmentCode) = some assessment →
      assessment.status = "active" →
      ¬ (now < assessment.window_start) → ¬ (now > assessment.window_end) →
      (match assessment.passcode_hash with
       | some h => verifySecret scrypt (sanitizeText bodyPasscode) h
       | none => assessment.passcode == sanitizeText bodyPasscode) = true →
      ¬ ((db.submissions.filter (fun r =>
        r.assessment_id == assessment.id &&
          r.student_id == sanitizeText bodyStudentId)).length >
        assessment.allow_retakes) →
      (db.sessions.filter (fun s =>
        s.assessment_id == assessment.id &&
          s.student_id == sanitizeText bodyStudentId &&
          s.status == "active")).head? = some existing →
      existing.disconnect_count = 1 → now < existing.expires_at →
      ∃ db2, admAuthStart db banks scrypt rands ornds true true
          bodyFullName bodyStudentId bodyEmail bodyPasscode
          bodyAssessmentCode newToken newSeed newAccessToken now =
          (db2, .resumed existing.token existing.started_at
            existing.expires_at) ∧
        db2.sessions = db.sessions) := by
  refine ⟨?_, ?_, ?_, ?_⟩
  · intro db tok s now hfind hst hc0
    have hstb : (s.status != "active") = false := by simp [hst]
    have hroute : admDisconnectRoute db tok now =
        ({ admUpdateSession db tok (fun r =>
            { r with disconnect_count := 1,
                     last_disconnect_at := some now }) with
           violation_events := (admUpdateSession db tok (fun r =>
             { r with disconnect_count := 1,
                      last_disconnect_at := some now })).violation_events ++
             [{ session_token := tok, event_type := "disconnect",
                details := "disconnect_count=" ++ toString 1,
                question_index := none }] },
          .counted 1) := by
      simp [admDisconnectRoute, hfind, hstb, hc0]
    refine ⟨_, hroute, rfl, ?_⟩
    intro s1 h1
    have h2 : admFindSession (admUpdateSession db tok (fun r =>
        { r with disconnect_count := 1,
                 last_disconnect_at := some now })) tok = some s1 := h1
    rw [admFindSession_updateSession_gen db tok (fun r =>
        { r with disconnect_count := 1,
                 last_disconnect_at := some now }) tok (fun _ => rfl),
      hfind, Option.map_some',
      if_pos (admFindSession_token db tok s hfind)] at h2
    cases h2
    exact ⟨hst, rfl⟩
  · intro db tok s now hfind hst hc1
    have hstb : (s.status != "active") = false := by simp [hst]
    have htokeq : s.token = tok := by
      simpa using admFindSession_token db tok s hfind
    subst htokeq
    have hs2 : ({ s with disconnect_count := 2 } : AdmSession).status ≠
        "submitted" := by
      show s.status ≠ "submitted"
      rw [hst]
      decide
    have hfind2 : admFindSession { admUpdateSession db s.token (fun r =>
          { r with disconnect_count := 2,
                   last_disconnect_at := some now }) with
          violation_events := (admUpdateSession db s.token (fun r =>
            { r with disconnect_count := 2,
                     last_disconnect_at := some now })).violation_events ++
            [{ session_token := s.token, event_type := "disconnect",
               details := "disconnect_count=" ++ toString 2,
               question_index := none }] }
        (({ s with disconnect_count := 2 } : AdmSession).token) =
        some { s with disconnect_count := 2,
                      last_disconnect_at := some now } := by
      show admFindSession (admUpdateSession db s.token (fun r =>
        { r with disconnect_count := 2,
                 last_disconnect_at := some now })) s.token = _
      rw [admFindSession_updateSession_gen db s.token (fun r =>
          { r with disconnect_count := 2,
                   last_disconnect_at := some now }) s.token (fun _ => rfl),
        hfind, Option.map_some',
        if_pos (admFindSession_token db s.token s hfind)]
    have haf := admFindSession_after_finalize _
      ({ s with disconnect_count := 2 }) true (some "second_disconnect")
      now hs2 _ hfind2
    simp only [admDisconnectRoute, hfind, hstb, Bool.false_eq_true,
      if_false, hc1]
    norm_num
    intro s1 h1
    rw [haf] at h1
    cases h1
    exact ⟨rfl, rfl⟩
  · intro db tok s now hfind hst
    have hstb : (s.status != "active") = true := by simp [hst]
    simp [admQuestionRoute, hfind, hstb]
  · intro db banks scrypt rands ornds bodyFullName bodyStudentId bodyEmail
      bodyPasscode bodyAssessmentCode newToken newSeed newAccessToken now
      assessment existing hfn hsid hem hfas hact hws hwe hpass hatt hex hc1
      hrem
    have hstb : (assessment.status != "active") = false := by simp [hact]
    have hrem2 : ¬ (admGetRemainingMs existing now ≤ 0) := by
      unfold admGetRemainingMs
      omega
    refine ⟨{ db with violation_events := db.violation_events ++
        [{ session_token := existing.token,
           event_type := "reconnect_resume",
           details := "session resumed after disconnect",
           question_index := none }] }, ?_, rfl⟩
    simp [admAuthStart, hfn, hsid, hem, hfas, hstb, hws, hwe, hpass, hatt,
      hex, hc1, hrem2]

theorem disconnect_termination_witness :
    ∃ db2, admDisconnectRoute ⟨[], [(⟨"t", "sd", "a1", "stu", "id1", "e@x", 0, 100, none, 0, "rat", "active", [], [], [], 0, none, none, none, none, false, none⟩ : AdmSession)], [], []⟩ "t" 5 = (db2, .counted 1) ∧
      db2.violation_events = ([] : List ViolationEvent) ++
        [{ session_token := "t", event_type := "disconnect",
           details := "disconnect_count=1", question_index := none }] ∧
      ∀ s1, admFindSession db2 "t" = some s1 →
        s1.status = "active" ∧ s1.disconnect_count = 1 :=
  disconnect_termination.1
    ⟨[], [(⟨"t", "sd", "a1", "stu", "id1", "e@x", 0, 100, none, 0, "rat", "active", [], [], [], 0, none, none, none, none, false, none⟩ : AdmSession)], [], []⟩
    "t"
    (⟨"t", "sd", "a1", "stu", "id1", "e@x", 0, 100, none, 0, "rat", "active", [], [], [], 0, none, none, none, none, false, none⟩ : AdmSession)
    5 (by decide) rfl rfl

/-- C5: session start deadline computation and closed-refusal — on a
successful start the persisted `expires_at` equals
`min(started_at + personal duration, window end)`; when that computed
expiry is already ≤ now the start is refused with `assessment_closed` and
no session is created; and the canonical route's `effectiveEndMs` is
exactly that minimum (the personal end when no window end exists). -/
theorem session_start_deadline :
    (∀ (db : AdmDB) (banks : String → List BankQuestion)
       (scrypt : String → String → String) (rands ornds : Nat → Nat → Nat)
       (bodyFullName bodyStudentId bodyEmail bodyPasscode
         bodyAssessmentCode newToken newSeed newAccessToken : String)
       (now : Int) (assessment : AdmAssessment)
       (selected : List BankQuestion) (k : Nat),
      sanitizeText bodyFullName ≠ "" → sanitizeText bodyStudentId ≠ "" →
      normalizeEmail bodyEmail ≠ "" →
      db.assessments.find? (fun a =>
        (sanitizeText bodyAssessmentCode == "" && a.status == "active") ||
          a.code == sanitizeText bodyAssessmentCode) = some assessment →
      assessment.status = "active" →
      ¬ (now < assessment.window_start) → ¬ (now > assessment.window_end) →
      (match assessment.passcode_hash with
       | some h => verifySecret scrypt (sanitizeText bodyPasscode) h
       | none => assessment.passcode == sanitizeText bodyPasscode) = true →
      ¬ ((db.submissions.filter (fun r =>
        r.assessment_id == assessment.id &&
          r.student_id == sanitizeText bodyStudentId)).length >
        assessment.allow_retakes) →
      (db.sessions.filter (fun s =>
        s.assessment_id == assessment.id &&
          s.student_id == sanitizeText bodyStudentId &&
          s.status == "active")).head? = none →
      admSelectLoop rands banks (parseAllocations assessment) 0 =
        Except.ok (selected, k) →
      selected.isEmpty = false →
      ¬ (min (now + (jsNatOr 60 assessment.duration_minutes) * 60 * 1000)
          assessment.window_end ≤ now) →
      (∀ s0 ∈ db.sessions, (s0.token == newToken) = false) →
      ∃ sess, admAuthStart db banks scrypt rands ornds true true
          bodyFullName bodyStudentId bodyEmail bodyPasscode
          bodyAssessmentCode newToken newSeed newAccessToken now =
          ({ db with sessions := db.sessions ++ [sess] },
            .created newToken newSeed now
              (min (now +
                  (jsNatOr 60 assessment.duration_minutes) * 60 * 1000)
                assessment.window_end)) ∧
        sess.started_at = now ∧
        sess.expires_at =
          min (now + (jsNatOr 60 assessment.duration_minutes) * 60 * 1000)
            assessment.window_end ∧
        admFindSession { db with sessions := db.sessions ++ [sess] }
          newToken = some sess) ∧
    (∀ (db : AdmDB) (banks : String → List BankQuestion)
       (scrypt : String → String → String) (rands ornds : Nat → Nat → Nat)
       (bodyFullName bodyStudentId bodyEmail bodyPasscode
         bodyAssessmentCode newToken newSeed newAccessToken : String)
       (now : Int) (assessment : AdmAssessment)
       (selected : List BankQuestion) (k : Nat),
      sanitizeText bodyFullName ≠ "" → sanitizeText bodyStudentId ≠ "" →
      normalizeEmail bodyEmail ≠ "" →
      db.assessments.find? (fun a =>
        (sanitizeText bodyAssessmentCode == "" && a.status == "active") ||
          a.code == sanitizeText bodyAssessmentCode) = some assessment →
      assessment.status = "active" →
      ¬ (now < assessment.window_start) → ¬ (now > assessment.window_end) →
      (match assessment.passcode_hash with
       | some h => verifySecret scrypt (sanitizeText bodyPasscode) h
       | none => assessment.passcode == sanitizeText bodyPasscode) = true →
      ¬ ((db.submissions.filter (fun r =>
        r.assessment_id == assessment.id &&
          r.student_id == sanitizeText bodyStudentId)).length >
        assessment.allow_retakes) →
      (db.sessions.filter (fun s =>
        s.assessment_id == assessment.id &&
          s.student_id == sanitizeText bodyStudentId &&
          s.status == "active")).head? = none →
      admSelectLoop rands banks (parseAllocations assessment) 0 =
        Except.ok (selected, k) →
      selected.isEmpty = false →
      min (now + (jsNatOr 60 assessment.duration_minutes) * 60 * 1000)
          assessment.window_end ≤ now →
      admAuthStart db banks scrypt rands ornds true true
          bodyFullName bodyStudentId bodyEmail bodyPasscode
          bodyAssessmentCode newToken newSeed newAccessToken now =
        (db, .assessmentClosed)) ∧
    (∀ (now d w : Int), effectiveEndMs now d (some w) = min (now + d) w ∧
      effectiveEndMs now d none = now + d) := by
  refine ⟨?_, ?_, ?_⟩
  · intro db banks scrypt rands ornds bodyFullName bodyStudentId bodyEmail
      bodyPasscode bodyAssessmentCode newToken newSeed newAccessToken now
      assessment selected k hfn hsid hem hfas hact hws hwe hpass hatt hnone
      hsel hne hexp hfresh
    have hstb : (assessment.status != "active") = false := by simp [hact]
    refine ⟨{ token := newToken, seed := newSeed,
              assessment_id := assessment.id,
              student_name := sanitizeText bodyFullName,
              student_id := sanitizeText bodyStudentId,
              student_email := normalizeEmail bodyEmail,
              started_at := now,
              expires_at := min (now +
                  (jsNatOr 60 assessment.duration_minutes) * 60 * 1000)
                assessment.window_end,
              window_end_at := some assessment.window_end,
              created_at := now,
              result_access_token := newAccessToken, status := "active",
              question_order := (admBuildSessionQuestions ornds
                (fisherYates (rands k) selected)).map (fun q => q.id),
              questions_snapshot := admBuildSessionQuestions ornds
                (fisherYates (rands k) selected),
              answers := [], disconnect_count := 0,
              last_disconnect_at := none, score := none, total := none,
              submitted_at := none, auto_submitted := false,
              terminated_reason := none }, ?_, rfl, rfl, ?_⟩
    · simp [admAuthStart, hfn, hsid, hem, hfas, hstb, hws, hwe, hpass,
        hatt, hnone, hsel, hne, hexp]
    · unfold admFindSession
      show (db.sessions ++ [_]).find? _ = _
      rw [List.find?_append, List.find?_eq_none.mpr (fun x hx => by
        simpa using hfresh x hx)]
      simp
  · intro db banks scrypt rands ornds bodyFullName bodyStudentId bodyEmail
      bodyPasscode bodyAssessmentCode newToken newSeed newAccessToken now
      assessment selected k hfn hsid hem hfas hact hws hwe hpass hatt hnone
      hsel hne hexp
    have hstb : (assessment.status != "active") = false := by simp [hact]
    simp [admAuthStart, hfn, hsid, hem, hfas, hstb, hws, hwe, hpass, hatt,
      hnone, hsel, hne, hexp]
  · intro now d w
    refine ⟨?_, rfl⟩
    show (if w < now + d then w else now + d) = min (now + d) w
    split <;> omega

theorem session_start_deadline_witness :
    admAuthStart
      ⟨[(⟨"a1", "CODE", "T", "active", 0, 1000, 1, none, "pc", 0, 1, "b", [⟨"b", 1⟩], false⟩ : AdmAssessment)], [], [], []⟩
      (fun _ => [(⟨"b", "q1", "cat", "easy", none, "s1", "e1", none, [⟨"oa", "ta", true⟩]⟩ : BankQuestion)])
      (fun _ _ => "") (fun _ _ => 0) (fun _ _ => 0) true true
      "stu" "id1" "e@x" "pc" "CODE" "t" "sd" "rat" 1000 =
    (⟨[(⟨"a1", "CODE", "T", "active", 0, 1000, 1, none, "pc", 0, 1, "b", [⟨"b", 1⟩], false⟩ : AdmAssessment)], [], [], []⟩, .assessmentClosed) :=
  session_start_deadline.2.1
    ⟨[(⟨"a1", "CODE", "T", "active", 0, 1000, 1, none, "pc", 0, 1, "b", [⟨"b", 1⟩], false⟩ : AdmAssessment)], [], [], []⟩
    (fun _ => [(⟨"b", "q1", "cat", "easy", none, "s1", "e1", none, [⟨"oa", "ta", true⟩]⟩ : BankQuestion)])
    (fun _ _ => "") (fun _ _ => 0) (fun _ _ => 0)
    "stu" "id1" "e@x" "pc" "CODE" "t" "sd" "rat" 1000
    (⟨"a1", "CODE", "T", "active", 0, 1000, 1, none, "pc", 0, 1, "b", [⟨"b", 1⟩], false⟩ : AdmAssessment)
    [(⟨"b", "q1", "cat", "easy", none, "s1", "e1", none, [⟨"oa", "ta", true⟩]⟩ : BankQuestion)] 1
    (by decide) (by decide) (by decide) (by decide) rfl (by decide)
    (by decide) (by decide) (by decide) rfl rfl rfl (by decide)
